import Mathlib

/-
Verification development for the Windows desktop agent toolset
(agent.py, main.py, scenarios.py, utils.py).

The Python code is shallowly embedded: Python values that flow through the
tool-argument / JSON layer are modelled by the inductive type `PyVal`
(numbers as rationals: every operation the code performs on coordinates is
max/min/comparison/swap, which are exact on binary floats, so the rational
model is faithful; IEEE infinities and NaN are outside the model and noted
where relevant).  Stateful code (the module-global `_screen_dimensions`,
the mutated `dump_cfg["dump_idx"]`, and calls into the `winapi` capability
surface) is modelled by explicit state passing: an `ExecState` carries the
screen geometry, the dump frame index and an append-only trace of
capability-surface effects.
-/

/-- Model of a Python value as delivered through the JSON / tool-argument
boundary: `None`, `bool`, `int`, `float` (as a rational), `str`, `list`,
`dict` (insertion-ordered key/value pairs, as in Python 3.7+). -/
inductive PyVal where
  | none
  | bool (b : Bool)
  | int (n : Int)
  | float (q : ℚ)
  | str (s : String)
  | list (xs : List PyVal)
  | dict (fs : List (String × PyVal))

/-- `d.get(k, default)` on a Python dict: the value of the last binding of
`k` (later duplicate keys overwrite earlier ones), or the default. -/
def pyGet (fs : List (String × PyVal)) (k : String) (d : PyVal) : PyVal :=
  match fs.reverse.find? (fun kv => kv.1 = k) with
  | Option.none => d
  | Option.some kv => kv.2

/-- Python `str.strip()` whitespace set, restricted to the ASCII whitespace
characters (the code never feeds non-ASCII whitespace to `strip`). -/
def isPySpace (c : Char) : Bool :=
  c = ' ' || c = '\t' || c = '\n' || c = '\r' || c = '\x0b' || c = '\x0c'

/-- Python `str.strip()`: drop leading and trailing whitespace. -/
def pyStrip (s : String) : String :=
  String.mk ((s.data.dropWhile isPySpace).reverse.dropWhile isPySpace).reverse

/-- Python `str.lower()`, modelled for the ASCII range (key names in this
program are ASCII). -/
def pyLower (s : String) : String := String.mk (s.data.map Char.toLower)

/-- A pair of separators handed to `json.dumps`: the item separator and the
key separator. -/
structure JSep where
  item : String
  key : String
deriving DecidableEq

/-- The separators passed explicitly by `ok_payload` / `err_payload`:
`separators=(",", ":")`. -/
def compactSep : JSep := JSep.mk "," ":"

/-- The separators `json.dumps` uses when none are given (no indent):
`(", ", ": ")` — this is what the bare `json.dumps` call in `run_agent`
uses for the synthetic `too_many_tool_calls` payload. -/
def defaultSep : JSep := JSep.mk ", " ": "

/-- A JSON-encoded tool-result payload: the value that was serialized and
the separators it was serialized with.  In the Python code this is the
output string of `json.dumps(val, ensure_ascii=True, separators=sep)`;
keeping the value and the separators makes the serialized form recoverable
through `dumpsV` below while letting theorems speak about the JSON shape
directly. -/
structure Payload where
  val : PyVal
  sep : JSep

/-- `utils.ok_payload`: `{"ok": True}` updated with the extra fields (the
extras in this program never contain the key `"ok"`, so `dict.update`
appends them after it). -/
def ok_payload (extra : List (String × PyVal)) : Payload :=
  Payload.mk (PyVal.dict (("ok", PyVal.bool true) :: extra)) compactSep

/-- `utils.err_payload`: `{"ok": False, "error": {"type": t, "message": m}}`
with compact separators. -/
def err_payload (t m : String) : Payload :=
  Payload.mk
    (PyVal.dict [("ok", PyVal.bool false),
      ("error", PyVal.dict [("type", PyVal.str t), ("message", PyVal.str m)])])
    compactSep

/-- The ResultEnvelope shape of the spec: an object whose first field is
`ok: true` (success, arbitrary further fields), or exactly
`{ok: false, error: {type: <string>, message: <string>}}` (failure). -/
def envelopeShape : PyVal → Bool
  | PyVal.dict (("ok", PyVal.bool true) :: _) => true
  | PyVal.dict [("ok", PyVal.bool false),
      ("error", PyVal.dict [("type", PyVal.str _), ("message", PyVal.str _)])] => true
  | _ => false

/-- The `error.type` field of a serialized payload, when present. -/
def payloadErrType (p : Payload) : Option String :=
  match p.val with
  | PyVal.dict fs =>
    match pyGet fs "error" PyVal.none with
    | PyVal.dict efs =>
      match pyGet efs "type" PyVal.none with
      | PyVal.str t => Option.some t
      | _ => Option.none
    | _ => Option.none
  | _ => Option.none

/-- One hexadecimal digit, lowercase, as produced by `json.dumps`
`\uXXXX` escapes. -/
def hexDigit (n : Nat) : Char :=
  match n % 16 with
  | 0 => '0' | 1 => '1' | 2 => '2' | 3 => '3' | 4 => '4'
  | 5 => '5' | 6 => '6' | 7 => '7' | 8 => '8' | 9 => '9'
  | 10 => 'a' | 11 => 'b' | 12 => 'c' | 13 => 'd' | 14 => 'e'
  | _ => 'f'

/-- Four lowercase hex digits. -/
def hex4 (n : Nat) : List Char :=
  [hexDigit (n / 4096), hexDigit (n / 256), hexDigit (n / 16), hexDigit n]

/-- Decimal digits of a natural number (fueled; callers pass fuel above
the digit count). -/
def natDigits : Nat → Nat → List Char
  | 0, _ => []
  | f + 1, n => if n < 10 then [hexDigit n] else natDigits f (n / 10) ++ [hexDigit (n % 10)]

/-- Decimal rendering of an integer, as `json.dumps` prints Python
ints. -/
def intRender (n : Int) : List Char :=
  if n < 0 then '-' :: natDigits (n.natAbs + 1) n.natAbs else natDigits (n.natAbs + 1) n.natAbs

/-- Escaping of one character inside a JSON string literal as performed by
`json.dumps(..., ensure_ascii=True)`: the two-character escapes for quote,
backslash and the common control characters, `\uXXXX` for other control
characters and for every non-ASCII character (surrogate pairs above the
BMP), and the character itself otherwise. -/
def escChar (c : Char) : List Char :=
  if c = '"' then ['\\', '"']
  else if c = '\\' then ['\\', '\\']
  else if c = '\n' then ['\\', 'n']
  else if c = '\r' then ['\\', 'r']
  else if c = '\t' then ['\\', 't']
  else if c = '\x08' then ['\\', 'b']
  else if c = '\x0c' then ['\\', 'f']
  else if c.toNat < 32 then '\\' :: 'u' :: hex4 c.toNat
  else if c.toNat < 128 then [c]
  else if c.toNat < 65536 then '\\' :: 'u' :: hex4 c.toNat
  else
    '\\' :: 'u' :: hex4 (55296 + (c.toNat - 65536) / 1024) ++
      ('\\' :: 'u' :: hex4 (56320 + (c.toNat - 65536) % 1024))

/-- A JSON string literal: quote, escaped characters, quote. -/
def escString (s : String) : List Char :=
  '"' :: s.data.flatMap escChar ++ ['"']

/-- Interleave a separator between serialized items (like
`sep.join(...)`). -/
def joinSep : List (List Char) → List Char → List Char
  | [], _ => []
  | [x], _ => x
  | x :: y :: u, sep => x ++ sep ++ joinSep (y :: u) sep

/-- `json.dumps(v, ensure_ascii=True, separators=sep)`, producing the
character list of the output.  Numbers: integers print exactly; floats are
rendered by the formatter parameter `fmt` (Python renders them with
`float.__repr__`, whose output is ASCII — theorems about ASCII-ness take
that as a hypothesis on `fmt`).  The first argument is recursion fuel
bounding the nesting depth; every value this program serializes has small
depth. -/
def dumpsV (fmt : ℚ → List Char) (sep : JSep) : Nat → PyVal → List Char
  | _, PyVal.none => ['n', 'u', 'l', 'l']
  | _, PyVal.bool true => ['t', 'r', 'u', 'e']
  | _, PyVal.bool false => ['f', 'a', 'l', 's', 'e']
  | _, PyVal.int n => intRender n
  | _, PyVal.float q => fmt q
  | _, PyVal.str s => escString s
  | 0, PyVal.list _ => []
  | 0, PyVal.dict _ => []
  | f + 1, PyVal.list xs =>
    '[' :: joinSep (xs.map (dumpsV fmt sep f)) sep.item.data ++ [']']
  | f + 1, PyVal.dict fs =>
    '\x7b' :: joinSep
        (fs.map (fun kv => escString kv.1 ++ sep.key.data ++ dumpsV fmt sep f kv.2))
        sep.item.data ++ ['\x7d']

/-- The serialized form of a payload (at nesting-depth fuel `f`). -/
def Payload.render (p : Payload) (fmt : ℚ → List Char) (f : Nat) : List Char :=
  dumpsV fmt p.sep f p.val

/-- ASCII character: code point below 128. -/
def asciiChar (c : Char) : Bool := c.toNat < 128

/-- Every character of the list is ASCII. -/
def allAscii (l : List Char) : Bool := l.all asciiChar

/-- Numeric value of a list of decimal digit characters. -/
def digitsVal (ds : List Char) : Nat :=
  ds.foldl (fun a c => a * 10 + (c.toNat - 48)) 0

/-- Value of a decimal number with integer digits `ip`, fraction digits
`fp` and exponent `ex`, negated when `neg`.  (The conditionals only skip
arithmetic that would be the identity, keeping integer-valued results in
normal form.) -/
def decValue (neg : Bool) (ip fp : List Char) (ex : Int) : ℚ :=
  let base : ℚ :=
    if fp.isEmpty then ((digitsVal ip : ℕ) : ℚ)
    else ((digitsVal ip * 10 ^ fp.length + digitsVal fp : ℕ) : ℚ) / (10 : ℚ) ^ fp.length
  let scaled : ℚ := if ex = 0 then base else base * (10 : ℚ) ^ ex
  if neg then -scaled else scaled

/-- Exponent suffix of `float(<string>)` after the `e`/`E` marker: optional
sign then at least one digit, consuming the whole remainder. -/
def floatExpPart (neg : Bool) (ip fp : List Char) (t : List Char) : Option ℚ :=
  let (esgn, t1) :=
    match t with
    | '+' :: u => ((1 : Int), u)
    | '-' :: u => ((-1 : Int), u)
    | _ => ((1 : Int), t)
  let ed := t1.takeWhile Char.isDigit
  let rest := t1.dropWhile Char.isDigit
  if ed.isEmpty || !rest.isEmpty then Option.none
  else Option.some (decValue neg ip fp (esgn * (digitsVal ed : Int)))

/-- Python `float(<string>)`: surrounding whitespace is stripped, then an
optional sign, decimal digits with an optional fractional part (at least
one digit on one side of the dot) and an optional exponent are accepted.
`Option.none` models the `ValueError` raised on anything else.  Not
modelled (they cannot be represented in `ℚ` / never arise in the claims):
the `inf`/`infinity`/`nan` spellings and underscores between digits. -/
def strToFloat (s : String) : Option ℚ :=
  let cs := ((s.data.dropWhile isPySpace).reverse.dropWhile isPySpace).reverse
  let (neg, cs1) :=
    match cs with
    | '+' :: t => (false, t)
    | '-' :: t => (true, t)
    | _ => (false, cs)
  let ip := cs1.takeWhile Char.isDigit
  let rest1 := cs1.dropWhile Char.isDigit
  let (fp, rest2) :=
    match rest1 with
    | '.' :: t => (t.takeWhile Char.isDigit, t.dropWhile Char.isDigit)
    | _ => (([] : List Char), rest1)
  if ip.isEmpty && fp.isEmpty then Option.none
  else
    match rest2 with
    | [] => Option.some (decValue neg ip fp 0)
    | 'e' :: t => floatExpPart neg ip fp t
    | 'E' :: t => floatExpPart neg ip fp t
    | _ => Option.none

/-- JSON whitespace accepted by Python's `json` scanner. -/
def jWs (c : Char) : Bool := c = ' ' || c = '\t' || c = '\n' || c = '\r'

/-- Skip JSON whitespace. -/
def skipWs (cs : List Char) : List Char := cs.dropWhile jWs

/-- Value of one hexadecimal digit character. -/
def hexVal (c : Char) : Option Nat :=
  if '0' ≤ c ∧ c ≤ '9' then Option.some (c.toNat - 48)
  else if 'a' ≤ c ∧ c ≤ 'f' then Option.some (c.toNat - 87)
  else if 'A' ≤ c ∧ c ≤ 'F' then Option.some (c.toNat - 55)
  else Option.none

/-- Four hex digits of a `\uXXXX` escape. -/
def parseHex4 : List Char → Option (Nat × List Char)
  | a :: b :: c :: d :: rest =>
    match hexVal a, hexVal b, hexVal c, hexVal d with
    | Option.some x, Option.some y, Option.some z, Option.some w =>
      Option.some (x * 4096 + y * 256 + z * 16 + w, rest)
    | _, _, _, _ => Option.none
  | _ => Option.none

/-- Body of a JSON string literal (after the opening quote): standard
escapes, `\uXXXX` with surrogate-pair combination, and a strict-mode
rejection of raw control characters.  A lone surrogate — which Python
would keep as an unpaired code unit that Lean's `Char` cannot represent —
is mapped to U+FFFD; no string in this program contains one. -/
def parseJString : Nat → List Char → Option (List Char × List Char)
  | 0, _ => Option.none
  | f + 1, cs =>
    match cs with
    | [] => Option.none
    | '"' :: t => Option.some ([], t)
    | '\\' :: e :: t =>
      let simple : Char → Option Char := fun c =>
        if c = '"' then Option.some '"'
        else if c = '\\' then Option.some '\\'
        else if c = '/' then Option.some '/'
        else if c = 'b' then Option.some '\x08'
        else if c = 'f' then Option.some '\x0c'
        else if c = 'n' then Option.some '\n'
        else if c = 'r' then Option.some '\r'
        else if c = 't' then Option.some '\t'
        else Option.none
      (match simple e with
       | Option.some c =>
         match parseJString f t with
         | Option.some (body, rest) => Option.some (c :: body, rest)
         | Option.none => Option.none
       | Option.none =>
         if e = 'u' then
           match parseHex4 t with
           | Option.some (n, t2) =>
             if 55296 ≤ n ∧ n < 56320 then
               match t2 with
               | '\\' :: 'u' :: t3 =>
                 match parseHex4 t3 with
                 | Option.some (m, t4) =>
                   if 56320 ≤ m ∧ m < 57344 then
                     match parseJString f t4 with
                     | Option.some (body, rest) =>
                       Option.some
                         (Char.ofNat (65536 + (n - 55296) * 1024 + (m - 56320)) :: body, rest)
                     | Option.none => Option.none
                   else
                     match parseJString f ('\\' :: 'u' :: t3) with
                     | Option.some (body, rest) => Option.some ('\uFFFD' :: body, rest)
                     | Option.none => Option.none
                 | Option.none => Option.none
               | _ =>
                 match parseJString f t2 with
                 | Option.some (body, rest) => Option.some ('\uFFFD' :: body, rest)
                 | Option.none => Option.none
             else if 56320 ≤ n ∧ n < 57344 then
               match parseJString f t2 with
               | Option.some (body, rest) => Option.some ('\uFFFD' :: body, rest)
               | Option.none => Option.none
             else
               match parseJString f t2 with
               | Option.some (body, rest) => Option.some (Char.ofNat n :: body, rest)
               | Option.none => Option.none
           | Option.none => Option.none
         else Option.none)
    | c :: t =>
      if c.toNat < 32 then Option.none
      else
        match parseJString f t with
        | Option.some (body, rest) => Option.some (c :: body, rest)
        | Option.none => Option.none

/-- A JSON number per the grammar Python's `json` scanner matches:
optional minus, `0` or a nonzero-led digit run, optional fraction
(at least one digit), optional exponent.  Integer literals become Python
`int`s, anything with a fraction or exponent becomes a `float` (modelled
exactly as a rational; Python rounds to binary64, which no claim
observes).  The non-standard `NaN`/`Infinity` spellings Python also
accepts are outside the rational model and not produced by this
program. -/
def parseJNumber (cs : List Char) : Option (PyVal × List Char) :=
  let (neg, cs1) :=
    match cs with
    | '-' :: t => (true, t)
    | _ => (false, cs)
  let ipOpt : Option (List Char × List Char) :=
    match cs1 with
    | '0' :: t => Option.some (['0'], t)
    | c :: t =>
      if c.isDigit then Option.some (c :: t.takeWhile Char.isDigit, t.dropWhile Char.isDigit)
      else Option.none
    | [] => Option.none
  match ipOpt with
  | Option.none => Option.none
  | Option.some (ip, rest1) =>
    let fracOpt : Option (List Char × List Char) :=
      match rest1 with
      | '.' :: t =>
        let fp := t.takeWhile Char.isDigit
        if fp.isEmpty then Option.none else Option.some (fp, t.dropWhile Char.isDigit)
      | _ => Option.some ([], rest1)
    match fracOpt with
    | Option.none => Option.none
    | Option.some (fp, rest2) =>
      let expOpt : Option (Option Int × List Char) :=
        match rest2 with
        | 'e' :: t | 'E' :: t =>
          let (esgn, t1) :=
            match t with
            | '+' :: u => ((1 : Int), u)
            | '-' :: u => ((-1 : Int), u)
            | _ => ((1 : Int), t)
          let ed := t1.takeWhile Char.isDigit
          if ed.isEmpty then Option.none
          else Option.some (Option.some (esgn * (digitsVal ed : Int)), t1.dropWhile Char.isDigit)
        | _ => Option.some (Option.none, rest2)
      match expOpt with
      | Option.none => Option.none
      | Option.some (exv, rest3) =>
        match fp, exv with
        | [], Option.none =>
          Option.some (PyVal.int ((if neg then -1 else 1) * (digitsVal ip : Int)), rest3)
        | _, _ =>
          Option.some (PyVal.float (decValue neg ip fp (exv.getD 0)), rest3)

/-- Parsing mode: a plain value, the items of an array after `[`, or the
fields of an object after `\x7b` (with the already-parsed prefix). -/
inductive PMode where
  | value
  | arrItems (acc : List PyVal)
  | objItems (acc : List (String × PyVal))

/-- The recursive JSON reader behind `json.loads`, fueled so that it is
structurally recursive (the fuel bounds the number of re-entries; callers
pass fuel well above the input length). -/
def parseJ : Nat → PMode → List Char → Option (PyVal × List Char)
  | 0, _, _ => Option.none
  | f + 1, PMode.value, cs0 =>
    let cs := skipWs cs0
    match cs with
    | '\x7b' :: t =>
      (match skipWs t with
       | '\x7d' :: t2 => Option.some (PyVal.dict [], t2)
       | _ => parseJ f (PMode.objItems []) t)
    | '[' :: t =>
      (match skipWs t with
       | ']' :: t2 => Option.some (PyVal.list [], t2)
       | _ => parseJ f (PMode.arrItems []) t)
    | '"' :: t =>
      (match parseJString (t.length + 1) t with
       | Option.some (body, rest) => Option.some (PyVal.str (String.mk body), rest)
       | Option.none => Option.none)
    | 't' :: 'r' :: 'u' :: 'e' :: t => Option.some (PyVal.bool true, t)
    | 'f' :: 'a' :: 'l' :: 's' :: 'e' :: t => Option.some (PyVal.bool false, t)
    | 'n' :: 'u' :: 'l' :: 'l' :: t => Option.some (PyVal.none, t)
    | _ => parseJNumber cs
  | f + 1, PMode.arrItems acc, cs =>
    (match parseJ f PMode.value cs with
     | Option.some (v, rest) =>
       (match skipWs rest with
        | ',' :: r => parseJ f (PMode.arrItems (acc ++ [v])) r
        | ']' :: r => Option.some (PyVal.list (acc ++ [v]), r)
        | _ => Option.none)
     | Option.none => Option.none)
  | f + 1, PMode.objItems acc, cs =>
    (match skipWs cs with
     | '"' :: t =>
       (match parseJString (t.length + 1) t with
        | Option.some (key, rest) =>
          (match skipWs rest with
           | ':' :: r =>
             (match parseJ f PMode.value r with
              | Option.some (v, rest2) =>
                (match skipWs rest2 with
                 | ',' :: r2 => parseJ f (PMode.objItems (acc ++ [(String.mk key, v)])) r2
                 | '\x7d' :: r2 =>
                   Option.some (PyVal.dict (acc ++ [(String.mk key, v)]), r2)
                 | _ => Option.none)
              | Option.none => Option.none)
           | _ => Option.none)
        | Option.none => Option.none)
     | _ => Option.none)

/-- `json.loads`: parse one JSON value and require only whitespace after
it.  `Option.none` models `json.JSONDecodeError`. -/
def jsonLoads (s : String) : Option PyVal :=
  match parseJ (3 * s.data.length + 8) PMode.value s.data with
  | Option.some (v, rest) => if (skipWs rest).isEmpty then Option.some v else Option.none
  | Option.none => Option.none

/-- `utils.parse_args`: tool arguments may arrive as a dict (passed
through), a JSON string (decoded; but note the Python truthiness test
`json.loads(arg_str) if arg_str else {}`, which maps the empty string to
an empty dict without parsing), `None` (empty dict), or anything else
(`invalid_args`).  Returns the pair (args-or-None, error-payload-or-None)
exactly like the source. -/
def parse_args (argStr : PyVal) : Option (List (String × PyVal)) × Option Payload :=
  match argStr with
  | PyVal.none => (Option.some [], Option.none)
  | PyVal.dict fs => (Option.some fs, Option.none)
  | PyVal.str s =>
    if s = "" then (Option.some [], Option.none)
    else
      match jsonLoads s with
      | Option.none =>
        (Option.none, Option.some (err_payload "invalid_json" "arguments must be valid JSON"))
      | Option.some (PyVal.dict fs) => (Option.some fs, Option.none)
      | Option.some _ =>
        (Option.none,
          Option.some (err_payload "invalid_args" "arguments JSON must parse to an object"))
  | _ =>
    (Option.none,
      Option.some (err_payload "invalid_args" "arguments must be a dict or JSON string"))

/-- `clamp` inside `utils.parse_box`: `max(0.0, min(1000.0, v))`. -/
def clamp (v : ℚ) : ℚ := max 0 (min 1000 v)

/-- `isinstance(v, (int, float))`.  Python's `bool` is a subclass of
`int`, so booleans count as numeric here. -/
def isNumeric : PyVal → Bool
  | PyVal.int _ => true
  | PyVal.float _ => true
  | PyVal.bool _ => true
  | _ => false

/-- `float(v)` on a value already known to be numeric. -/
def toFloatNum : PyVal → ℚ
  | PyVal.int n => (n : ℚ)
  | PyVal.float q => q
  | PyVal.bool b => if b then 1 else 0
  | _ => 0

/-- `float(v)` in general: numeric values convert, strings are parsed
(`strToFloat`), anything else raises (`Option.none` models the
`TypeError`/`ValueError`). -/
def pyFloat : PyVal → Option ℚ
  | PyVal.int n => Option.some (n : ℚ)
  | PyVal.float q => Option.some q
  | PyVal.bool b => Option.some (if b then 1 else 0)
  | PyVal.str s => strToFloat s
  | _ => Option.none

/-- Text of the exception `float(v)` raises, approximating CPython's
wording (no claim inspects these message strings). -/
def floatErrText : PyVal → String
  | PyVal.str s => "could not convert string to float: \x27" ++ s ++ "\x27"
  | _ => "float() argument must be a string or a real number"

/-- The `invalid_box` payload for a malformed shape. -/
def boxShapeErr : Payload :=
  err_payload "invalid_box" "box must be [x,y], [x1,y1,x2,y2], or [[x1,y1],[x2,y2]]"

/-- The `invalid_box` payload produced by the `except (TypeError,
ValueError)` handler around the legacy-branch `float(...)` calls. -/
def boxNumErr (v : PyVal) : Payload :=
  err_payload "invalid_box" ("coordinates must be numbers: " ++ floatErrText v)

/-- Clamp four coordinates and swap the x and the y pairs if inverted
(`if x1 > x2: swap`, `if y1 > y2: swap`). -/
def clampOrder (x1 y1 x2 y2 : ℚ) : ℚ × ℚ × ℚ × ℚ :=
  let x1 := clamp x1
  let y1 := clamp y1
  let x2 := clamp x2
  let y2 := clamp y2
  let p : ℚ × ℚ := if x1 > x2 then (x2, x1) else (x1, x2)
  let q : ℚ × ℚ := if y1 > y2 then (y2, y1) else (y1, y2)
  (p.1, q.1, p.2, q.2)

/-- `utils.parse_box`: point `[x,y]`, flat bbox `[x1,y1,x2,y2]`, or legacy
bbox `[[x1,y1],[x2,y2]]`.  The first two branches require
`isinstance(v, (int, float))` elements; the legacy branch coerces its four
entries with `float(...)` inside a try/except, so numeric strings are
accepted there and non-coercible values produce the
`coordinates must be numbers` error.  Returns `(bbox-or-None,
error-payload-or-None)` exactly like the source. -/
def parse_box (box : PyVal) : Option (ℚ × ℚ × ℚ × ℚ) × Option Payload :=
  match box with
  | PyVal.list [a, b] =>
    if isNumeric a && isNumeric b then
      let x := clamp (toFloatNum a)
      let y := clamp (toFloatNum b)
      (Option.some (x, y, x, y), Option.none)
    else
      match a, b with
      | PyVal.list [a1, a2], PyVal.list [b1, b2] =>
        (match pyFloat a1 with
         | Option.none => (Option.none, Option.some (boxNumErr a1))
         | Option.some x1 =>
           match pyFloat a2 with
           | Option.none => (Option.none, Option.some (boxNumErr a2))
           | Option.some y1 =>
             match pyFloat b1 with
             | Option.none => (Option.none, Option.some (boxNumErr b1))
             | Option.some x2 =>
               match pyFloat b2 with
               | Option.none => (Option.none, Option.some (boxNumErr b2))
               | Option.some y2 =>
                 (Option.some (clampOrder x1 y1 x2 y2), Option.none))
      | _, _ => (Option.none, Option.some boxShapeErr)
  | PyVal.list [a, b, c, d] =>
    if isNumeric a && isNumeric b && isNumeric c && isNumeric d then
      (Option.some (clampOrder (toFloatNum a) (toFloatNum b) (toFloatNum c) (toFloatNum d)),
        Option.none)
    else (Option.none, Option.some boxShapeErr)
  | _ => (Option.none, Option.some boxShapeErr)

/-- `utils.box_center`: arithmetic midpoint. -/
def box_center (x1 y1 x2 y2 : ℚ) : ℚ × ℚ := ((x1 + x2) / 2, (y1 + y2) / 2)

/-- Modelled from the spec: `winapi.norm_to_screen_px` (the capability
surface's `normalize_to_pixels`) is not under `src/`; the spec gives the
linear map `px = cx/1000 * width`, `py = cy/1000 * height`, rounding left
to the capability surface. -/
def norm_to_screen_px (cx cy : ℚ) (w h : Int) : ℚ × ℚ :=
  (cx / 1000 * (w : ℚ), cy / 1000 * (h : ℚ))

/-- `"<think>"`. -/
def openTok : List Char := ['<', 't', 'h', 'i', 'n', 'k', '>']

/-- `"</think>"`. -/
def closeTok : List Char := ['<', '/', 't', 'h', 'i', 'n', 'k', '>']

/-- Index of the first occurrence of `pat` in the list, if any. -/
def firstOccur (pat : List Char) : List Char → Option Nat
  | [] => if pat.isPrefixOf ([] : List Char) then Option.some 0 else Option.none
  | c :: t =>
    if pat.isPrefixOf (c :: t) then Option.some 0
    else (firstOccur pat t).map (fun i => i + 1)

/-- Python's `in` test for a substring. -/
def containsSub (s : String) (pat : List Char) : Bool :=
  (firstOccur pat s.data).isSome

/-- One pass of `re.sub` for the pattern `<think>.*?</think>` (DOTALL,
non-greedy): repeatedly find the first `<think>`, then the first
`</think>` after it, delete the span, and continue scanning after the
deleted span.  A `<think>` with no later `</think>` matches nothing and
scanning stops.  The fuel argument (instantiated with the input length,
ample since every deletion removes at least 15 characters) keeps the
recursion structural. -/
def stripSpansAux : Nat → List Char → List Char
  | 0, s => s
  | f + 1, s =>
    match firstOccur openTok s with
    | Option.none => s
    | Option.some i =>
      match firstOccur closeTok (s.drop (i + 7)) with
      | Option.none => s
      | Option.some j => s.take i ++ stripSpansAux f (s.drop (i + 7 + j + 8))

/-- `_THINK_RE.sub("", s)`. -/
def stripSpans (s : List Char) : List Char := stripSpansAux s.length s

/-- `_THINK_RE.sub("", c).strip()` — the redaction applied to pruned
assistant messages. -/
def subStrip (s : String) : String := pyStrip (String.mk (stripSpans s.data))

/-- `utils.strip_think`, restricted to the strings that reach it (its
non-string guard returns `""`; for the empty string the sub+strip path
also yields `""`). -/
def strip_think (text : String) : String := if text = "" then "" else subStrip text

/-- The content of a transcript message: a plain string, a list of
content parts (dicts with a `type` field), a JSON tool-result payload
(a string in Python, kept with its AST and separators — see `Payload`),
Python `None`, or anything else (`other`, which none of the scans
match). -/
inductive Content where
  | text (s : String)
  | parts (ps : List PyVal)
  | payload (p : Payload)
  | none
  | other

/-- A `tool_calls` entry of an assistant message:
`{id, function: {name, arguments}}`; missing `arguments` is `PyVal.none`
(Python `tc["function"].get("arguments")`). -/
structure ToolCall where
  id : String
  name : String
  arguments : PyVal

/-- A transcript message.  Python represents these as dicts; the optional
`tool_call_id` / `name` keys of tool messages and the `tool_calls` list of
assistant messages become optional fields (`tool_calls` missing or `None`
is the empty list, as read by `msg.get("tool_calls") or []`). -/
structure Message where
  role : String
  content : Content
  toolCallId : Option String := Option.none
  name : Option String := Option.none
  toolCalls : List ToolCall := []

/-- One capability-surface operation, recorded in order of invocation. -/
inductive Effect where
  | captureScreen (targetW targetH : Int)
  | writeFrame (path : String)
  | moveMouse (px py : ℚ)
  | click
  | typeText (s : String)
  | pressKey (k : String)
  | scrollDown
deriving DecidableEq

/-- The mutable state threaded through tool execution: the module-global
`_screen_dimensions` (initialized to 1920×1080), the frame index
`dump_cfg["dump_idx"]` mutated by `observe_screen`, and the trace of
capability-surface effects performed so far. -/
structure ExecState where
  screenW : Int := 1920
  screenH : Int := 1080
  dumpIdx : Int := 1
  effects : List Effect := []
deriving DecidableEq

/-- The immutable part of `dump_cfg`. -/
structure DumpCfg where
  dumpDir : String
  dumpPrefix : String
  targetW : Int
  targetH : Int

/-- Modelled from the spec: the `winapi` capability surface is not under
`src/`.  `capture` returns `(image_bytes, screen_w, screen_h)` for the
requested encode size; `validKey` tells whether `press(key_name)`
succeeds (it raises `ValueError` on an unsupported name, with message
text `keyErrMsg`). -/
structure Winapi where
  capture : Int → Int → List Nat × Int × Int
  validKey : String → Bool
  keyErrMsg : String → String

/-- The base64 alphabet. -/
def b64Char (n : Nat) : Char :=
  "ABCDEFGHIJKLMNOPQRSTUVWXYZabcdefghijklmnopqrstuvwxyz0123456789+/".data.getD n '='

/-- `base64.b64encode` over a byte list. -/
def b64encode : List Nat → List Char
  | [] => []
  | [a] => [b64Char (a / 4), b64Char (a % 4 * 16), '=', '=']
  | [a, b] => [b64Char (a / 4), b64Char (a % 4 * 16 + b / 16), b64Char (b % 16 * 4), '=']
  | a :: b :: c :: rest =>
    [b64Char (a / 4), b64Char (a % 4 * 16 + b / 16), b64Char (b % 16 * 4 + c / 64),
      b64Char (c % 64)] ++ b64encode rest

/-- Left-pad with zeros to the given width. -/
def zfill (w : Nat) (s : String) : String :=
  String.mk (List.replicate (w - s.length) '0') ++ s

/-- The f-string field `{idx:04d}`. -/
def fmt04d (n : Int) : String :=
  if n < 0 then "-" ++ zfill 3 (toString (-n)) else zfill 4 (toString n)

/-- Approximates the f-string field `{x:.1f}` (exact up to the final
rounding convention; no claim inspects these message texts). -/
def fmt1f (q : ℚ) : String :=
  let t : Int := Int.floor (q * 10 + 1 / 2)
  toString (t / 10) ++ "." ++ toString ((t % 10).natAbs)

/-- Python `str()` for the values this program can receive.  The
renderings of floats and containers are approximations of `repr` (they
are only interpolated into human-readable message fields, which no claim
inspects; what matters — and is exact — is that they are non-empty and
that `str` of a string is the identity). -/
def pyStr : PyVal → String
  | PyVal.str s => s
  | PyVal.int n => toString n
  | PyVal.bool b => if b then "True" else "False"
  | PyVal.none => "None"
  | PyVal.float q => fmt1f q
  | PyVal.list _ => "[...]"
  | PyVal.dict _ => "\x7b...\x7d"

/-- The result of `scenarios.execute_tool`: the tool message, the optional
companion user message, and the threaded state. -/
structure ExecOut where
  toolMsg : Message
  userMsg : Option Message
  st : ExecState

/-- The tool-message dict literal every branch of `execute_tool` builds:
`{"role": "tool", "tool_call_id": call_id, "name": tool_name,
"content": <payload>}`. -/
def toolReply (callId toolName : String) (p : Payload) : Message :=
  Message.mk "tool" (Content.payload p) (Option.some callId) (Option.some toolName) []

/-- `scenarios.execute_tool`.  Matches the source branch by branch;
`winapi` calls become recorded effects (with `api` supplying the
capture result and key validity), `time.sleep` settle delays are not
modelled (no claim mentions timing), and `os.path.join` is modelled with
a `/` separator. -/
def execute_tool (api : Winapi) (dcfg : DumpCfg) (toolName : String) (argStr : PyVal)
    (callId : String) (st : ExecState) : ExecOut :=
  if toolName = "observe_screen" then
    let cap := api.capture dcfg.targetW dcfg.targetH
    let png := cap.1
    let sw := cap.2.1
    let sh := cap.2.2
    let fn := dcfg.dumpDir ++ "/" ++ dcfg.dumpPrefix ++ fmt04d st.dumpIdx ++ ".png"
    let st1 : ExecState :=
      ExecState.mk sw sh (st.dumpIdx + 1)
        (st.effects ++ [Effect.captureScreen dcfg.targetW dcfg.targetH, Effect.writeFrame fn])
    let b64 := String.mk (b64encode png)
    ExecOut.mk
      (toolReply callId toolName (ok_payload
        [("file", PyVal.str fn),
         ("screen_width", PyVal.int sw),
         ("screen_height", PyVal.int sh),
         ("message", PyVal.str
           "Screenshot captured. Use normalized coordinates (0-1000). Prefer point clicks: box=[x,y].")]))
      (Option.some (Message.mk "user"
        (Content.parts
          [PyVal.dict [("type", PyVal.str "text"),
             ("text", PyVal.str
               "Current screen state. Identify UI elements and provide click targets in normalized 0-1000 coordinates. Prefer point clicks box=[x,y] for small targets (taskbar icons).")],
           PyVal.dict [("type", PyVal.str "image_url"),
             ("image_url", PyVal.dict [("url", PyVal.str ("data:image/png;base64," ++ b64))])]])
        Option.none Option.none []))
      st1
  else if toolName = "click_element" then
    match (parse_args argStr).2 with
    | Option.some e => ExecOut.mk (toolReply callId toolName e) Option.none st
    | Option.none =>
      let args := (parse_args argStr).1.getD []
      let label := pyStrip (pyStr (pyGet args "label" (PyVal.str "")))
      let boxv := pyGet args "box" PyVal.none
      if label = "" then
        ExecOut.mk (toolReply callId toolName (err_payload "missing_label" "label required"))
          Option.none st
      else
        match boxv with
        | PyVal.none =>
          ExecOut.mk (toolReply callId toolName (err_payload "missing_box" "box required"))
            Option.none st
        | _ =>
          match parse_box boxv with
          | (_, Option.some be) => ExecOut.mk (toolReply callId toolName be) Option.none st
          | (Option.some (x1, y1, x2, y2), Option.none) =>
            let c := box_center x1 y1 x2 y2
            let pp := norm_to_screen_px c.1 c.2 st.screenW st.screenH
            let st1 : ExecState :=
              ExecState.mk st.screenW st.screenH st.dumpIdx
                (st.effects ++ [Effect.moveMouse pp.1 pp.2, Effect.click])
            ExecOut.mk
              (toolReply callId toolName (ok_payload
                [("clicked", PyVal.str label),
                 ("box_normalized", PyVal.list
                   [PyVal.list [PyVal.float x1, PyVal.float y1],
                    PyVal.list [PyVal.float x2, PyVal.float y2]]),
                 ("click_position", PyVal.list [PyVal.float c.1, PyVal.float c.2]),
                 ("message", PyVal.str
                   ("Clicked \x27" ++ label ++ "\x27 at (" ++ fmt1f c.1 ++ "," ++ fmt1f c.2 ++
                     "). Use observe_screen to verify."))]))
              Option.none st1
          | (Option.none, Option.none) =>
            -- unreachable: parse_box always returns a box or an error
            ExecOut.mk (toolReply callId toolName boxShapeErr) Option.none st
  else if toolName = "type_text" then
    match (parse_args argStr).2 with
    | Option.some e => ExecOut.mk (toolReply callId toolName e) Option.none st
    | Option.none =>
      let args := (parse_args argStr).1.getD []
      let text := pyStr (pyGet args "text" (PyVal.str ""))
      let textAscii := String.mk (text.data.filter asciiChar)
      if textAscii = "" then
        ExecOut.mk
          (toolReply callId toolName (err_payload "empty_text" "text empty or no ASCII chars"))
          Option.none st
      else
        let st1 : ExecState :=
          ExecState.mk st.screenW st.screenH st.dumpIdx
            (st.effects ++ [Effect.typeText textAscii])
        ExecOut.mk
          (toolReply callId toolName (ok_payload
            [("typed", PyVal.str textAscii),
             ("chars", PyVal.int (textAscii.length : Int)),
             ("message", PyVal.str "Typed text. Use observe_screen to verify.")]))
          Option.none st1
  else if toolName = "press_key" then
    match (parse_args argStr).2 with
    | Option.some e => ExecOut.mk (toolReply callId toolName e) Option.none st
    | Option.none =>
      let args := (parse_args argStr).1.getD []
      let key := pyLower (pyStrip (pyStr (pyGet args "key" (PyVal.str ""))))
      if key = "" then
        ExecOut.mk (toolReply callId toolName (err_payload "missing_key" "key required"))
          Option.none st
      else if api.validKey key then
        let st1 : ExecState :=
          ExecState.mk st.screenW st.screenH st.dumpIdx (st.effects ++ [Effect.pressKey key])
        ExecOut.mk
          (toolReply callId toolName (ok_payload
            [("key", PyVal.str key),
             ("message", PyVal.str
               ("Pressed \x27" ++ key ++ "\x27. Use observe_screen to verify."))]))
          Option.none st1
      else
        ExecOut.mk (toolReply callId toolName (err_payload "invalid_key" (api.keyErrMsg key)))
          Option.none st
  else if toolName = "scroll_at_position" then
    match (parse_args argStr).2 with
    | Option.some e => ExecOut.mk (toolReply callId toolName e) Option.none st
    | Option.none =>
      let args := (parse_args argStr).1.getD []
      let boxv := pyGet args "box" PyVal.none
      -- the code after the `if box is not None` / `else` join point
      let proceed : ℚ → ℚ → ExecOut := fun cx cy =>
        let pp := norm_to_screen_px cx cy st.screenW st.screenH
        let st1 : ExecState :=
          ExecState.mk st.screenW st.screenH st.dumpIdx
            (st.effects ++ [Effect.moveMouse pp.1 pp.2, Effect.scrollDown])
        ExecOut.mk
          (toolReply callId toolName (ok_payload
            [("message", PyVal.str
              ("Scrolled down at (" ++ fmt1f cx ++ "," ++ fmt1f cy ++
                "). Use observe_screen to verify."))]))
          Option.none st1
      match boxv with
      | PyVal.none => proceed 500 500
      | _ =>
        match parse_box boxv with
        | (_, Option.some be) => ExecOut.mk (toolReply callId toolName be) Option.none st
        | (Option.some (x1, y1, x2, y2), Option.none) =>
          proceed (box_center x1 y1 x2 y2).1 (box_center x1 y1 x2 y2).2
        | (Option.none, Option.none) =>
          -- unreachable: parse_box always returns a box or an error
          ExecOut.mk (toolReply callId toolName boxShapeErr) Option.none st
  else
    ExecOut.mk
      (toolReply callId toolName (err_payload "unknown_tool" ("Unknown tool: " ++ toolName)))
      Option.none st

/-- The scan predicate of `prune_old_screenshots`: a user message whose
content is a list containing a dict part with `type == "image_url"`. -/
def isImgUserMsg (m : Message) : Bool :=
  m.role = "user" &&
    (match m.content with
     | Content.parts ps =>
       ps.any (fun p =>
         match p with
         | PyVal.dict fs =>
           match pyGet fs "type" PyVal.none with
           | PyVal.str t => t == "image_url"
           | _ => false
         | _ => false)
     | _ => false)

/-- The redaction `prune_old_screenshots` applies. -/
def redactScreen (m : Message) : Message :=
  Message.mk m.role (Content.text "captured image data (omitted)") m.toolCallId m.name
    m.toolCalls

/-- The scan predicate of `prune_old_thinks`: an assistant message whose
string content contains both `<think>` and `</think>`. -/
def isThinkMsg (m : Message) : Bool :=
  m.role = "assistant" &&
    (match m.content with
     | Content.text s => containsSub s openTok && containsSub s closeTok
     | _ => false)

/-- The redaction `prune_old_thinks` applies (it re-checks that the
content is a string, as the source does). -/
def redactThink (m : Message) : Message :=
  match m.content with
  | Content.text s =>
    Message.mk m.role (Content.text (subStrip s)) m.toolCallId m.name m.toolCalls
  | _ => m

/-- Replace (with `r`) the first `n` messages satisfying `p`, in order —
this is how the index-based loop `for i in idxs[:-keep_last]: mutate`
acts on the list: `idxs` is the ordered list of matching indices and the
loop rewrites exactly its first `len(idxs) - keep_last` entries. -/
def redactFirstN (p : Message → Bool) (r : Message → Message) : Nat → List Message → List Message
  | _, [] => []
  | 0, ms => ms
  | n + 1, m :: ms =>
    if p m then r m :: redactFirstN p r n ms else m :: redactFirstN p r (n + 1) ms

/-- `utils.prune_old_screenshots`.  Note the slice `idxs[:-keep_last]`:
for `keep_last = 0` Python's `[:-0]` is the EMPTY slice, so nothing is
redacted even when matches exist. -/
def prune_old_screenshots (messages : List Message) (keepLast : Nat) : List Message :=
  let c := messages.countP isImgUserMsg
  if c ≤ keepLast then messages
  else redactFirstN isImgUserMsg redactScreen (if keepLast = 0 then 0 else c - keepLast) messages

/-- `utils.prune_old_thinks`; the same `[:-keep_last]` slice quirk
applies. -/
def prune_old_thinks (messages : List Message) (keepLast : Nat) : List Message :=
  let c := messages.countP isThinkMsg
  if c ≤ keepLast then messages
  else redactFirstN isThinkMsg redactThink (if keepLast = 0 then 0 else c - keepLast) messages

/-- The synthetic failure message `run_agent` appends for each tool call
beyond the first: `{"role": "tool", "tool_call_id": extra_tc["id"],
"name": extra_tc["function"]["name"], "content": json.dumps({"ok": False,
"error": "too_many_tool_calls"})}` — note the bare `json.dumps`, i.e.
default separators, and the `error` field being a plain string. -/
def tooManyMsg (tc : ToolCall) : Message :=
  Message.mk "tool"
    (Content.payload (Payload.mk
      (PyVal.dict [("ok", PyVal.bool false), ("error", PyVal.str "too_many_tool_calls")])
      defaultSep))
    (Option.some tc.id) (Option.some tc.name) []

/-- Retention configuration of the loop. -/
structure StepCfg where
  keepLastScreenshots : Nat
  keepLastThinks : Nat

/-- Result of one iteration of the `for _ in range(max_steps)` body:
either the loop returned a final answer, or it continues with the new
transcript, candidate answer, state, and the list of dispatcher
invocations made during the iteration (always one per continuing step). -/
structure StepOut where
  finalAnswer : Option String
  messages : List Message
  lastContent : String
  st : ExecState
  dispatched : List ToolCall

/-- One iteration of the loop body of `agent.run_agent`, from the point
where the model response message `msg` has been received: append it,
prune thinks, update the candidate final answer, return on zero tool
calls, answer every extra tool call with a synthetic
`too_many_tool_calls` message, execute the first call through
`execute_tool`, append its messages, and prune screenshots when a user
message was appended.  (`time.sleep(step_delay)` is not modelled.) -/
def run_agent_step (api : Winapi) (dcfg : DumpCfg) (cfg : StepCfg)
    (messages : List Message) (lastContent : String) (msg : Message) (st : ExecState) :
    StepOut :=
  let messages1 := prune_old_thinks (messages ++ [msg]) cfg.keepLastThinks
  let last1 :=
    match msg.content with
    | Content.text s => s
    | _ => lastContent
  match msg.toolCalls with
  | [] => StepOut.mk (Option.some (strip_think last1)) messages1 last1 st []
  | tc :: extras =>
    let messages2 := messages1 ++ extras.map tooManyMsg
    let out := execute_tool api dcfg tc.name tc.arguments tc.id st
    let messages3 := messages2 ++ [out.toolMsg]
    let messages4 :=
      match out.userMsg with
      | Option.some u => prune_old_screenshots (messages3 ++ [u]) cfg.keepLastScreenshots
      | Option.none => messages3
    StepOut.mk Option.none messages4 last1 out.st [tc]

/-- The validation-error types of claim C10. -/
def validationErrTypes : List String :=
  ["invalid_args", "invalid_json", "missing_label", "missing_box", "missing_key",
   "empty_text", "invalid_box"]

/-- The `error.type` carried by a message whose content is a serialized
payload. -/
def msgErrType (m : Message) : Option String :=
  match m.content with
  | Content.payload p => payloadErrType p
  | _ => Option.none

/-- A concrete capability surface for witnesses: empty capture image at
1920×1080, every key valid. -/
def apiStub : Winapi :=
  Winapi.mk (fun _ _ => ([], 1920, 1080)) (fun _ => true)
    (fun k => "unsupported key: " ++ k)

/-- A concrete dump configuration for witnesses (the defaults of
`main.py`). -/
def dcfg0 : DumpCfg := DumpCfg.mk "dumps" "screen_" 1536 864

/-- A concrete initial state for witnesses. -/
def st0 : ExecState := ExecState.mk 1920 1080 1 []

/-- A constant ASCII float formatter used to discharge the formatter
hypothesis in witnesses. -/
def fmt0 : ℚ → List Char := fun _ => ['0']

/-- The shapes `parse_box` accepts without raising: a two-element list of
numerics, a four-element list of numerics, or a two-element list of
two-element lists. -/
def boxShapeOk (box : PyVal) : Bool :=
  match box with
  | PyVal.list [a, b] =>
    (isNumeric a && isNumeric b) ||
      (match a, b with
       | PyVal.list [_, _], PyVal.list [_, _] => true
       | _, _ => false)
  | PyVal.list [a, b, c, d] => isNumeric a && isNumeric b && isNumeric c && isNumeric d
  | _ => false

/-- Every error payload `parse_args` can return is an `err_payload`:
compact separators and the failure envelope shape. -/
theorem pa_err_shape {a : PyVal} {e : Payload} (h : (parse_args a).2 = Option.some e) :
    e.sep = compactSep ∧ envelopeShape e.val = true := by
  rcases a with _ | b | n | q | s | xs | fs
  · exact Option.noConfusion h
  · injection h with h; subst h; exact ⟨rfl, rfl⟩
  · injection h with h; subst h; exact ⟨rfl, rfl⟩
  · injection h with h; subst h; exact ⟨rfl, rfl⟩
  · simp only [parse_args] at h
    split at h
    · exact Option.noConfusion h
    · split at h
      · injection h with h; subst h; exact ⟨rfl, rfl⟩
      · exact Option.noConfusion h
      · injection h with h; subst h; exact ⟨rfl, rfl⟩
  · injection h with h; subst h; exact ⟨rfl, rfl⟩
  · exact Option.noConfusion h

/-- Every error payload `parse_box` can return is an `err_payload`:
compact separators and the failure envelope shape. -/
theorem pb_err_shape {b : PyVal} {o : Option (ℚ × ℚ × ℚ × ℚ)} {e : Payload}
    (h : parse_box b = (o, Option.some e)) :
    e.sep = compactSep ∧ envelopeShape e.val = true := by
  unfold parse_box at h
  (repeat' split at h) <;>
    (injection h with h1 h2) <;>
    first
      | exact Option.noConfusion h2
      | (injection h2 with h2; subst h2; exact ⟨rfl, rfl⟩)

/-- Branch-by-branch characterization of `execute_tool`: the tool message
is always a `tool`-role reply carrying the correlation id and tool name
and a compact-separator envelope-shaped payload; a companion user message
exists exactly for `observe_screen`; and whenever the payload is one of
the validation errors, the state (screen geometry, dump index, effect
trace) is untouched. -/
theorem execute_tool_master (api : Winapi) (dcfg : DumpCfg) (n : String) (a : PyVal)
    (id : String) (st : ExecState) :
    (execute_tool api dcfg n a id st).toolMsg.role = "tool" ∧
    (execute_tool api dcfg n a id st).toolMsg.toolCallId = Option.some id ∧
    (execute_tool api dcfg n a id st).toolMsg.name = Option.some n ∧
    (∃ p, (execute_tool api dcfg n a id st).toolMsg.content = Content.payload p ∧
      p.sep = compactSep ∧ envelopeShape p.val = true) ∧
    ((execute_tool api dcfg n a id st).userMsg ≠ Option.none ↔ n = "observe_screen") ∧
    (∀ t, msgErrType (execute_tool api dcfg n a id st).toolMsg = Option.some t →
      t ∈ validationErrTypes → (execute_tool api dcfg n a id st).st = st) := by
  by_cases h1 : n = "observe_screen"
  · subst h1
    exact ⟨rfl, rfl, rfl, ⟨_, rfl, rfl, rfl⟩, by simp [execute_tool],
      fun t h hm => Option.noConfusion h⟩
  · by_cases h2 : n = "click_element"
    · subst h2
      unfold execute_tool
      simp only [String.reduceEq, if_false, if_true, reduceIte]
      (repeat' split) <;>
        refine ⟨rfl, rfl, rfl, ?_,
          by simp, by intro t h hm; first | rfl | exact Option.noConfusion h⟩ <;>
        first
          | exact ⟨_, rfl, rfl, rfl⟩
          | exact ⟨_, rfl, (pa_err_shape (by assumption)).1, (pa_err_shape (by assumption)).2⟩
          | exact ⟨_, rfl, (pb_err_shape (by assumption)).1, (pb_err_shape (by assumption)).2⟩
    · by_cases h3 : n = "type_text"
      · subst h3
        unfold execute_tool
        simp only [String.reduceEq, if_false, if_true, reduceIte]
        (repeat' split) <;>
          refine ⟨rfl, rfl, rfl, ?_,
            by simp, by intro t h hm; first | rfl | exact Option.noConfusion h⟩ <;>
          first
            | exact ⟨_, rfl, rfl, rfl⟩
            | exact ⟨_, rfl, (pa_err_shape (by assumption)).1, (pa_err_shape (by assumption)).2⟩
      · by_cases h4 : n = "press_key"
        · subst h4
          unfold execute_tool
          simp only [String.reduceEq, if_false, if_true, reduceIte]
          (repeat' split) <;>
            refine ⟨rfl, rfl, rfl, ?_,
              by simp, by intro t h hm; first | rfl | exact Option.noConfusion h⟩ <;>
            first
              | exact ⟨_, rfl, rfl, rfl⟩
              | exact ⟨_, rfl, (pa_err_shape (by assumption)).1, (pa_err_shape (by assumption)).2⟩
        · by_cases h5 : n = "scroll_at_position"
          · subst h5
            unfold execute_tool
            simp only [String.reduceEq, if_false, if_true, reduceIte]
            (repeat' split) <;>
              refine ⟨rfl, rfl, rfl, ?_,
                by simp, by intro t h hm; first | rfl | exact Option.noConfusion h⟩ <;>
              first
                | exact ⟨_, rfl, rfl, rfl⟩
                | exact ⟨_, rfl, (pa_err_shape (by assumption)).1,
                    (pa_err_shape (by assumption)).2⟩
                | exact ⟨_, rfl, (pb_err_shape (by assumption)).1,
                    (pb_err_shape (by assumption)).2⟩
          · have e : execute_tool api dcfg n a id st =
                ExecOut.mk
                  (toolReply id n (err_payload "unknown_tool" ("Unknown tool: " ++ n)))
                  Option.none st := by
              unfold execute_tool
              rw [if_neg h1, if_neg h2, if_neg h3, if_neg h4, if_neg h5]
            rw [e]
            exact ⟨rfl, rfl, rfl, ⟨_, rfl, rfl, rfl⟩, by simp [h1],
              fun t h hm => rfl⟩

theorem hexDigit_ascii (n : Nat) : asciiChar (hexDigit n) = true := by
  unfold hexDigit; split <;> rfl

theorem allAscii_append (a b : List Char) : allAscii (a ++ b) = (allAscii a && allAscii b) :=
  List.all_append

theorem allAscii_cons (c : Char) (l : List Char) :
    allAscii (c :: l) = (asciiChar c && allAscii l) := rfl

theorem hex4_ascii (n : Nat) : allAscii (hex4 n) = true := by
  simp only [hex4, allAscii, List.all_cons, List.all_nil, hexDigit_ascii, Bool.and_true,
    Bool.and_self]

theorem natDigits_ascii (f n : Nat) : allAscii (natDigits f n) = true := by
  induction f generalizing n with
  | zero => rfl
  | succ f ih =>
    unfold natDigits
    split
    · simp only [allAscii, List.all_cons, List.all_nil, hexDigit_ascii, Bool.and_true]
    · rw [allAscii_append, ih]
      simp only [allAscii, List.all_cons, List.all_nil, hexDigit_ascii, Bool.and_true,
        Bool.true_and]

theorem intRender_ascii (n : Int) : allAscii (intRender n) = true := by
  unfold intRender
  split
  · rw [allAscii_cons, natDigits_ascii]
    rfl
  · exact natDigits_ascii _ _

theorem escChar_ascii (c : Char) : allAscii (escChar c) = true := by
  unfold escChar
  by_cases h1 : c = '\x22'
  · rw [if_pos h1]; rfl
  rw [if_neg h1]
  by_cases h2 : c = '\\'
  · rw [if_pos h2]; rfl
  rw [if_neg h2]
  by_cases h3 : c = '\n'
  · rw [if_pos h3]; rfl
  rw [if_neg h3]
  by_cases h4 : c = '\r'
  · rw [if_pos h4]; rfl
  rw [if_neg h4]
  by_cases h5 : c = '\t'
  · rw [if_pos h5]; rfl
  rw [if_neg h5]
  by_cases h6 : c = '\x08'
  · rw [if_pos h6]; rfl
  rw [if_neg h6]
  by_cases h7 : c = '\x0c'
  · rw [if_pos h7]; rfl
  rw [if_neg h7]
  by_cases h8 : c.toNat < 32
  · rw [if_pos h8, allAscii_cons, allAscii_cons, hex4_ascii]; rfl
  rw [if_neg h8]
  by_cases h9 : c.toNat < 128
  · rw [if_pos h9, allAscii_cons]
    simp only [asciiChar, decide_eq_true_eq, allAscii, List.all_nil, Bool.and_true]
    exact h9
  rw [if_neg h9]
  by_cases h10 : c.toNat < 65536
  · rw [if_pos h10, allAscii_cons, allAscii_cons, hex4_ascii]; rfl
  rw [if_neg h10, allAscii_append, allAscii_cons, allAscii_cons, hex4_ascii, allAscii_cons,
    allAscii_cons, hex4_ascii]
  rfl

theorem flatMap_escChar_ascii (l : List Char) : allAscii (l.flatMap escChar) = true := by
  induction l with
  | nil => rfl
  | cons c t ih =>
    rw [List.flatMap_cons, allAscii_append, escChar_ascii, ih]
    rfl

theorem escString_ascii (s : String) : allAscii (escString s) = true := by
  rw [escString, allAscii_append, allAscii_cons, flatMap_escChar_ascii]
  rfl

theorem joinSep_ascii (xs : List (List Char)) (sep : List Char)
    (hx : ∀ x ∈ xs, allAscii x = true) (hs : allAscii sep = true) :
    allAscii (joinSep xs sep) = true := by
  induction xs with
  | nil => rfl
  | cons x t ih =>
    cases t with
    | nil => exact hx x (List.mem_cons_self x [])
    | cons y u =>
      rw [joinSep, allAscii_append, allAscii_append, hs,
        hx x (List.mem_cons_self x _), ih (fun z hz => hx z (List.mem_cons_of_mem x hz))]
      rfl

theorem dumpsV_ascii (fmt : ℚ → List Char) (sep : JSep)
    (hf : ∀ q, allAscii (fmt q) = true)
    (hi : allAscii sep.item.data = true) (hk : allAscii sep.key.data = true) :
    ∀ f v, allAscii (dumpsV fmt sep f v) = true := by
  intro f
  induction f with
  | zero =>
    intro v
    cases v with
    | none => rfl
    | bool b => cases b <;> rfl
    | int n => exact intRender_ascii n
    | float q => exact hf q
    | str s => exact escString_ascii s
    | list xs => rfl
    | dict fs => rfl
  | succ f ih =>
    intro v
    cases v with
    | none => rfl
    | bool b => cases b <;> rfl
    | int n => exact intRender_ascii n
    | float q => exact hf q
    | str s => exact escString_ascii s
    | list xs =>
      have hj : allAscii (joinSep (xs.map (dumpsV fmt sep f)) sep.item.data) = true := by
        refine joinSep_ascii _ _ ?_ hi
        intro x hx
        obtain ⟨v, _, rfl⟩ := List.mem_map.mp hx
        exact ih v
      rw [dumpsV, allAscii_append, allAscii_cons, hj]
      rfl
    | dict fs =>
      have hj : allAscii (joinSep
          (fs.map (fun kv => escString kv.1 ++ sep.key.data ++ dumpsV fmt sep f kv.2))
          sep.item.data) = true := by
        refine joinSep_ascii _ _ ?_ hi
        intro x hx
        obtain ⟨kv, _, rfl⟩ := List.mem_map.mp hx
        rw [allAscii_append, allAscii_append, escString_ascii, hk, ih kv.2]
        rfl
      rw [dumpsV, allAscii_append, allAscii_cons, hj]
      rfl

/-- C9: for every tool name (known or unknown), argument payload and
correlation id, the first returned message has role `"tool"`, carries the
given correlation id as `tool_call_id` and the requested tool name as
`name`; a companion user message exists exactly for `observe_screen`. -/
theorem claim_C9_tool_msg_invariants (api : Winapi) (dcfg : DumpCfg) (n : String)
    (a : PyVal) (id : String) (st : ExecState) :
    (execute_tool api dcfg n a id st).toolMsg.role = "tool" ∧
    (execute_tool api dcfg n a id st).toolMsg.toolCallId = Option.some id ∧
    (execute_tool api dcfg n a id st).toolMsg.name = Option.some n ∧
    ((execute_tool api dcfg n a id st).userMsg ≠ Option.none ↔ n = "observe_screen") :=
  let m := execute_tool_master api dcfg n a id st
  ⟨m.1, m.2.1, m.2.2.1, m.2.2.2.2.1⟩

/-- C10: whenever `execute_tool` returns one of the validation-error
envelopes (`invalid_args`, `invalid_json`, `missing_label`,
`missing_box`, `missing_key`, `empty_text`, `invalid_box`), no
capability-surface operation has been recorded and the screen geometry
and dump frame index are unchanged. -/
theorem claim_C10_validation_error_no_effects (api : Winapi) (dcfg : DumpCfg) (n : String)
    (a : PyVal) (id : String) (st : ExecState) (t : String)
    (h : msgErrType (execute_tool api dcfg n a id st).toolMsg = Option.some t)
    (hm : t ∈ validationErrTypes) :
    (execute_tool api dcfg n a id st).st.effects = st.effects ∧
    (execute_tool api dcfg n a id st).st.screenW = st.screenW ∧
    (execute_tool api dcfg n a id st).st.screenH = st.screenH ∧
    (execute_tool api dcfg n a id st).st.dumpIdx = st.dumpIdx := by
  have e := (execute_tool_master api dcfg n a id st).2.2.2.2.2 t h hm
  rw [e]
  exact ⟨rfl, rfl, rfl, rfl⟩

/-- Witness for C10 at a concrete input: `click_element` with a label but
no box produces the `missing_box` validation error and leaves the effect
trace empty. -/
theorem claim_C10_validation_error_no_effects_witness :
    msgErrType (execute_tool apiStub dcfg0 "click_element"
        (PyVal.dict [("label", PyVal.str "ok")]) "call_1" st0).toolMsg =
      Option.some "missing_box" ∧
    (execute_tool apiStub dcfg0 "click_element"
        (PyVal.dict [("label", PyVal.str "ok")]) "call_1" st0).st.effects = st0.effects :=
  ⟨rfl,
    (claim_C10_validation_error_no_effects apiStub dcfg0 "click_element"
      (PyVal.dict [("label", PyVal.str "ok")]) "call_1" st0 "missing_box" rfl
      (by simp [validationErrTypes])).1⟩

/-- C2 (amended): every envelope produced by the Tool Dispatcher is a
compact-separator, ASCII-serialized JSON object of shape
`{ok: true, ...}` / `{ok: false, error: {type, message}}`; the synthetic
`too_many_tool_calls` messages of the Agent Loop instead serialize
`{"ok": false, "error": "too_many_tool_calls"}` — the `error` field a
plain string, with `json.dumps` default (spaced) separators — though
still ASCII. -/
theorem claim_C2_amended_envelopes (api : Winapi) (dcfg : DumpCfg) (n : String)
    (a : PyVal) (id : String) (st : ExecState) :
    (∃ p, (execute_tool api dcfg n a id st).toolMsg.content = Content.payload p ∧
      p.sep = compactSep ∧ envelopeShape p.val = true ∧
      (∀ fmt, (∀ q, allAscii (fmt q) = true) →
        ∀ f, allAscii (Payload.render p fmt f) = true)) ∧
    (∀ tc : ToolCall, ∃ p, (tooManyMsg tc).content = Content.payload p ∧
      p.sep = defaultSep ∧ envelopeShape p.val = false ∧
      (∀ fmt, (∀ q, allAscii (fmt q) = true) →
        ∀ f, allAscii (Payload.render p fmt f) = true)) := by
  constructor
  · obtain ⟨p, hc, hs, he⟩ := (execute_tool_master api dcfg n a id st).2.2.2.1
    exact ⟨p, hc, hs, he, fun fmt hf f => by
      rw [Payload.render, hs]
      exact dumpsV_ascii fmt compactSep hf rfl rfl f p.val⟩
  · intro tc
    refine ⟨_, rfl, rfl, rfl, fun fmt hf f => ?_⟩
    exact dumpsV_ascii fmt defaultSep hf rfl rfl f _

/-- Counterexample to C2 as stated: the synthetic `too_many_tool_calls`
tool message for a concrete extra call does not carry a
`{ok:false, error:{type,message}}` envelope (its `error` field is a plain
string) and is not serialized with the compact separators. -/
theorem claim_C2_counterexample :
    ∃ p, (tooManyMsg (ToolCall.mk "call_2" "press_key" PyVal.none)).content =
        Content.payload p ∧
      envelopeShape p.val = false ∧ p.sep ≠ compactSep :=
  ⟨_, rfl, rfl, by decide⟩

/-- Witness for C2 at a concrete input: a `press_key` success envelope is
payload-shaped with compact separators, and its rendering under a
concrete ASCII formatter is ASCII. -/
theorem claim_C2_amended_envelopes_witness :
    ∃ p, (execute_tool apiStub dcfg0 "press_key"
        (PyVal.dict [("key", PyVal.str "enter")]) "call_1" st0).toolMsg.content =
        Content.payload p ∧
      p.sep = compactSep ∧ envelopeShape p.val = true ∧
      allAscii (Payload.render p fmt0 5) = true := by
  obtain ⟨p, hc, hs, he, ha⟩ :=
    (claim_C2_amended_envelopes apiStub dcfg0 "press_key"
      (PyVal.dict [("key", PyVal.str "enter")]) "call_1" st0).1
  exact ⟨p, hc, hs, he, ha fmt0 (fun q => rfl) 5⟩

/-- Counterexample to C5 as stated: the empty string is not parseable
JSON, yet `parse_args` maps it to the empty mapping (the Python
truthiness test `json.loads(arg_str) if arg_str else {}` short-circuits)
instead of failing with `invalid_json`. -/
theorem claim_C5_counterexample :
    parse_args (PyVal.str "") = (Option.some [], Option.none) ∧
    jsonLoads "" = Option.none :=
  ⟨rfl, rfl⟩

/-- C5 (amended): `parse_args` maps `None` to the empty mapping, passes a
structured mapping through unchanged, maps the EMPTY string to the empty
mapping without JSON parsing, JSON-decodes any nonempty string (failing
`invalid_json` on parse error, `invalid_args` when the decoded value is
not a mapping), and fails `invalid_args` on any other type. -/
theorem claim_C5_amended_parse_args :
    parse_args PyVal.none = (Option.some [], Option.none) ∧
    (∀ fs, parse_args (PyVal.dict fs) = (Option.some fs, Option.none)) ∧
    parse_args (PyVal.str "") = (Option.some [], Option.none) ∧
    (∀ s, s ≠ "" → jsonLoads s = Option.none →
      parse_args (PyVal.str s) =
        (Option.none, Option.some (err_payload "invalid_json" "arguments must be valid JSON"))) ∧
    (∀ s fs, s ≠ "" → jsonLoads s = Option.some (PyVal.dict fs) →
      parse_args (PyVal.str s) = (Option.some fs, Option.none)) ∧
    (∀ s v, s ≠ "" → jsonLoads s = Option.some v → (∀ fs, v ≠ PyVal.dict fs) →
      parse_args (PyVal.str s) =
        (Option.none,
          Option.some (err_payload "invalid_args" "arguments JSON must parse to an object"))) ∧
    (∀ b, parse_args (PyVal.bool b) =
      (Option.none,
        Option.some (err_payload "invalid_args" "arguments must be a dict or JSON string"))) ∧
    (∀ n, parse_args (PyVal.int n) =
      (Option.none,
        Option.some (err_payload "invalid_args" "arguments must be a dict or JSON string"))) ∧
    (∀ q, parse_args (PyVal.float q) =
      (Option.none,
        Option.some (err_payload "invalid_args" "arguments must be a dict or JSON string"))) ∧
    (∀ xs, parse_args (PyVal.list xs) =
      (Option.none,
        Option.some (err_payload "invalid_args" "arguments must be a dict or JSON string"))) := by
  refine ⟨rfl, fun fs => rfl, rfl, ?_, ?_, ?_, fun b => rfl, fun n => rfl, fun q => rfl,
    fun xs => rfl⟩
  · intro s hne hj
    simp only [parse_args, if_neg hne, hj]
  · intro s fs hne hj
    simp only [parse_args, if_neg hne, hj]
  · intro s v hne hj hv
    cases v with
    | dict fs => exact absurd rfl (hv fs)
    | none => simp only [parse_args, if_neg hne, hj]
    | bool b => simp only [parse_args, if_neg hne, hj]
    | int n => simp only [parse_args, if_neg hne, hj]
    | float q => simp only [parse_args, if_neg hne, hj]
    | str t => simp only [parse_args, if_neg hne, hj]
    | list xs => simp only [parse_args, if_neg hne, hj]

/-- Witness for C5 at concrete inputs: a non-JSON string fails
`invalid_json`, a JSON array fails `invalid_args`, and a JSON object
passes through as a mapping. -/
theorem claim_C5_amended_parse_args_witness :
    parse_args (PyVal.str "not json") =
      (Option.none, Option.some (err_payload "invalid_json" "arguments must be valid JSON")) ∧
    parse_args (PyVal.str "[1]") =
      (Option.none,
        Option.some (err_payload "invalid_args" "arguments JSON must parse to an object")) ∧
    parse_args (PyVal.str "\x7b\"a\": 1\x7d") =
      (Option.some [("a", PyVal.int 1)], Option.none) := by
  refine ⟨?_, ?_, ?_⟩
  · exact claim_C5_amended_parse_args.2.2.2.1 "not json" (by decide) rfl
  · exact claim_C5_amended_parse_args.2.2.2.2.2.1 "[1]" (PyVal.list [PyVal.int 1])
      (by decide) rfl (fun fs h => PyVal.noConfusion h)
  · exact claim_C5_amended_parse_args.2.2.2.2.1 "\x7b\"a\": 1\x7d" [("a", PyVal.int 1)]
      (by decide) rfl

/-- C7: `type_text` filters the provided text to its ASCII characters
(non-ASCII silently dropped); an empty filtered result yields the
`empty_text` error with no capability call, and otherwise exactly the
filtered text is sent to the capability surface and the success envelope
reports the filtered length as `chars`. -/
theorem claim_C7_type_text_ascii_filter (api : Winapi) (dcfg : DumpCfg) (a : PyVal)
    (id : String) (st : ExecState) (fs : List (String × PyVal)) (s : String)
    (hargs : parse_args a = (Option.some fs, Option.none))
    (htext : pyGet fs "text" (PyVal.str "") = PyVal.str s) :
    (String.mk (s.data.filter asciiChar) = "" →
      (execute_tool api dcfg "type_text" a id st).toolMsg.content =
        Content.payload (err_payload "empty_text" "text empty or no ASCII chars") ∧
      (execute_tool api dcfg "type_text" a id st).st = st) ∧
    (String.mk (s.data.filter asciiChar) ≠ "" →
      (execute_tool api dcfg "type_text" a id st).st.effects =
        st.effects ++ [Effect.typeText (String.mk (s.data.filter asciiChar))] ∧
      (execute_tool api dcfg "type_text" a id st).toolMsg.content =
        Content.payload (ok_payload
          [("typed", PyVal.str (String.mk (s.data.filter asciiChar))),
           ("chars", PyVal.int ((String.mk (s.data.filter asciiChar)).length : Int)),
           ("message", PyVal.str "Typed text. Use observe_screen to verify.")])) := by
  have h1 : (parse_args a).1 = Option.some fs := by rw [hargs]
  have h2 : (parse_args a).2 = Option.none := by rw [hargs]
  unfold execute_tool
  simp only [String.reduceEq, reduceIte, h1, h2, Option.getD_some, htext, pyStr]
  constructor
  · intro he
    rw [if_pos he]
    exact ⟨rfl, rfl⟩
  · intro hne
    rw [if_neg hne]
    exact ⟨rfl, rfl⟩

/-- Witness for C7: typing `"héllo"` drops the non-ASCII `é`, sends
`"hllo"` to the capability surface, and reports `chars = 4`. -/
theorem claim_C7_type_text_ascii_filter_witness :
    (execute_tool apiStub dcfg0 "type_text" (PyVal.dict [("text", PyVal.str "héllo")])
        "call_1" st0).st.effects = st0.effects ++ [Effect.typeText "hllo"] ∧
    (execute_tool apiStub dcfg0 "type_text" (PyVal.dict [("text", PyVal.str "héllo")])
        "call_1" st0).toolMsg.content =
      Content.payload (ok_payload
        [("typed", PyVal.str "hllo"), ("chars", PyVal.int 4),
         ("message", PyVal.str "Typed text. Use observe_screen to verify.")]) := by
  have h := (claim_C7_type_text_ascii_filter apiStub dcfg0
    (PyVal.dict [("text", PyVal.str "héllo")]) "call_1" st0
    [("text", PyVal.str "héllo")] "héllo" rfl rfl).2 (by decide)
  have hf : String.mk ("héllo".data.filter asciiChar) = "hllo" := by decide
  refine ⟨?_, ?_⟩
  · rw [h.1, hf]
  · rw [h.2, hf]
    rfl

/-- C8: `click_element` validates before acting — a missing or empty
label yields `missing_label`, a valid label with no box yields
`missing_box`, a present but malformed box yields the `invalid_box`
error delegated from `parse_box`, in every such case with no
capability-surface effect; only when both validate does it move the
pointer to the box center (converted to pixels against the current
screen geometry) and click. -/
theorem claim_C8_click_element_validation (api : Winapi) (dcfg : DumpCfg) (a : PyVal)
    (id : String) (st : ExecState) (fs : List (String × PyVal))
    (hargs : parse_args a = (Option.some fs, Option.none)) :
    (∀ l, pyGet fs "label" (PyVal.str "") = PyVal.str l → pyStrip l = "" →
      (execute_tool api dcfg "click_element" a id st).toolMsg.content =
        Content.payload (err_payload "missing_label" "label required") ∧
      (execute_tool api dcfg "click_element" a id st).st = st) ∧
    (∀ l, pyGet fs "label" (PyVal.str "") = PyVal.str l → pyStrip l ≠ "" →
      pyGet fs "box" PyVal.none = PyVal.none →
      (execute_tool api dcfg "click_element" a id st).toolMsg.content =
        Content.payload (err_payload "missing_box" "box required") ∧
      (execute_tool api dcfg "click_element" a id st).st = st) ∧
    (∀ l bv e, pyGet fs "label" (PyVal.str "") = PyVal.str l → pyStrip l ≠ "" →
      pyGet fs "box" PyVal.none = bv → bv ≠ PyVal.none →
      parse_box bv = (Option.none, Option.some e) →
      (execute_tool api dcfg "click_element" a id st).toolMsg.content =
        Content.payload e ∧
      (execute_tool api dcfg "click_element" a id st).st = st) ∧
    (∀ l bv x1 y1 x2 y2, pyGet fs "label" (PyVal.str "") = PyVal.str l → pyStrip l ≠ "" →
      pyGet fs "box" PyVal.none = bv → bv ≠ PyVal.none →
      parse_box bv = (Option.some (x1, y1, x2, y2), Option.none) →
      (execute_tool api dcfg "click_element" a id st).st.effects =
        st.effects ++
          [Effect.moveMouse
            (norm_to_screen_px (box_center x1 y1 x2 y2).1 (box_center x1 y1 x2 y2).2
              st.screenW st.screenH).1
            (norm_to_screen_px (box_center x1 y1 x2 y2).1 (box_center x1 y1 x2 y2).2
              st.screenW st.screenH).2,
           Effect.click] ∧
      (execute_tool api dcfg "click_element" a id st).st.screenW = st.screenW ∧
      (execute_tool api dcfg "click_element" a id st).st.screenH = st.screenH ∧
      (execute_tool api dcfg "click_element" a id st).st.dumpIdx = st.dumpIdx) := by
  have h1 : (parse_args a).1 = Option.some fs := by rw [hargs]
  have h2 : (parse_args a).2 = Option.none := by rw [hargs]
  unfold execute_tool
  simp only [String.reduceEq, reduceIte, h1, h2, Option.getD_some]
  refine ⟨?_, ?_, ?_, ?_⟩
  · intro l hl he
    rw [hl]
    simp only [pyStr, if_pos he]
    exact ⟨rfl, trivial⟩
  · intro l hl hne hb
    rw [hl, hb]
    simp only [pyStr, if_neg hne]
    exact ⟨rfl, trivial⟩
  · intro l bv e hl hne hb hbv hpb
    rw [hl, hb]
    simp only [pyStr, if_neg hne]
    cases bv with
    | none => exact absurd rfl hbv
    | bool b => rw [hpb]; exact ⟨rfl, rfl⟩
    | int n => rw [hpb]; exact ⟨rfl, rfl⟩
    | float q => rw [hpb]; exact ⟨rfl, rfl⟩
    | str s => rw [hpb]; exact ⟨rfl, rfl⟩
    | list xs => rw [hpb]; exact ⟨rfl, rfl⟩
    | dict dfs => rw [hpb]; exact ⟨rfl, rfl⟩
  · intro l bv x1 y1 x2 y2 hl hne hb hbv hpb
    rw [hl, hb]
    simp only [pyStr, if_neg hne]
    cases bv with
    | none => exact absurd rfl hbv
    | bool b => rw [hpb]; exact ⟨rfl, rfl, rfl, rfl⟩
    | int n => rw [hpb]; exact ⟨rfl, rfl, rfl, rfl⟩
    | float q => rw [hpb]; exact ⟨rfl, rfl, rfl, rfl⟩
    | str s => rw [hpb]; exact ⟨rfl, rfl, rfl, rfl⟩
    | list xs => rw [hpb]; exact ⟨rfl, rfl, rfl, rfl⟩
    | dict dfs => rw [hpb]; exact ⟨rfl, rfl, rfl, rfl⟩

/-- Witness for C8: `execute("click_element", {"label": "ok"}, ...)`
yields the `missing_box` error with no pointer movement. -/
theorem claim_C8_click_element_validation_witness :
    (execute_tool apiStub dcfg0 "click_element" (PyVal.dict [("label", PyVal.str "ok")])
        "call_1" st0).toolMsg.content =
      Content.payload (err_payload "missing_box" "box required") ∧
    (execute_tool apiStub dcfg0 "click_element" (PyVal.dict [("label", PyVal.str "ok")])
        "call_1" st0).st = st0 :=
  (claim_C8_click_element_validation apiStub dcfg0
    (PyVal.dict [("label", PyVal.str "ok")]) "call_1" st0
    [("label", PyVal.str "ok")] rfl).2.1 "ok" rfl (by decide) rfl

theorem clamp_nonneg (v : ℚ) : 0 ≤ clamp v := le_max_left 0 _

theorem clamp_le (v : ℚ) : clamp v ≤ 1000 :=
  max_le (by norm_num) (min_le_left 1000 v)

/-- `clampOrder` returns four values in `[0, 1000]` with `x1 ≤ x2` and
`y1 ≤ y2`. -/
theorem clampOrder_spec (x1 y1 x2 y2 : ℚ) :
    0 ≤ (clampOrder x1 y1 x2 y2).1 ∧ (clampOrder x1 y1 x2 y2).1 ≤ 1000 ∧
    0 ≤ (clampOrder x1 y1 x2 y2).2.1 ∧ (clampOrder x1 y1 x2 y2).2.1 ≤ 1000 ∧
    0 ≤ (clampOrder x1 y1 x2 y2).2.2.1 ∧ (clampOrder x1 y1 x2 y2).2.2.1 ≤ 1000 ∧
    0 ≤ (clampOrder x1 y1 x2 y2).2.2.2 ∧ (clampOrder x1 y1 x2 y2).2.2.2 ≤ 1000 ∧
    (clampOrder x1 y1 x2 y2).1 ≤ (clampOrder x1 y1 x2 y2).2.2.1 ∧
    (clampOrder x1 y1 x2 y2).2.1 ≤ (clampOrder x1 y1 x2 y2).2.2.2 := by
  unfold clampOrder
  by_cases hx : clamp x1 > clamp x2 <;> by_cases hy : clamp y1 > clamp y2 <;>
    simp only [hx, hy, if_true, if_false, reduceIte] <;>
    refine ⟨clamp_nonneg _, clamp_le _, clamp_nonneg _, clamp_le _, clamp_nonneg _,
      clamp_le _, clamp_nonneg _, clamp_le _, ?_, ?_⟩ <;>
    first
      | exact le_of_lt (by assumption)
      | exact le_of_not_lt (by assumption)

/-- Counterexample to C3 as stated: the nested two-pair descriptor
`[[1, "5"], [2, 3]]` contains a non-numeric element (the string `"5"`),
yet `parse_box` succeeds — the legacy branch coerces elements with
`float(...)` — returning `(1, 3, 2, 5)` (y-swap applied) instead of an
`invalid_box` error. -/
theorem claim_C3_counterexample :
    parse_box (PyVal.list [PyVal.list [PyVal.int 1, PyVal.str "5"],
        PyVal.list [PyVal.int 2, PyVal.int 3]]) =
      (Option.some (1, 3, 2, 5), Option.none) ∧
    isNumeric (PyVal.str "5") = false :=
  ⟨rfl, rfl⟩

/-- C3 (amended): `parse_box` accepts the three descriptor shapes with
numeric elements — every returned coordinate clamped into `[0, 1000]` and
ordered (`x1 ≤ x2`, `y1 ≤ y2`, swapped after clamping when inverted),
with `[100,200,50,400]` yielding `(50,200,100,400)` — and rejects every
other shape with `invalid_box`; in the nested two-pair shape, elements
are coerced with Python `float(...)`, so numeric strings are also
accepted, and only descriptors with a non-coercible element yield the
`invalid_box` coercion error there. -/
theorem claim_C3_amended_parse_box :
    (parse_box (PyVal.list [PyVal.int 100, PyVal.int 200, PyVal.int 50, PyVal.int 400]) =
      (Option.some (50, 200, 100, 400), Option.none)) ∧
    (∀ a b, isNumeric a = true → isNumeric b = true →
      parse_box (PyVal.list [a, b]) =
        (Option.some (clamp (toFloatNum a), clamp (toFloatNum b), clamp (toFloatNum a),
          clamp (toFloatNum b)), Option.none) ∧
      0 ≤ clamp (toFloatNum a) ∧ clamp (toFloatNum a) ≤ 1000 ∧
      0 ≤ clamp (toFloatNum b) ∧ clamp (toFloatNum b) ≤ 1000) ∧
    (∀ a b c d, isNumeric a = true → isNumeric b = true → isNumeric c = true →
      isNumeric d = true →
      parse_box (PyVal.list [a, b, c, d]) =
        (Option.some (clampOrder (toFloatNum a) (toFloatNum b) (toFloatNum c) (toFloatNum d)),
          Option.none) ∧
      (clampOrder (toFloatNum a) (toFloatNum b) (toFloatNum c) (toFloatNum d)).1 ≤
        (clampOrder (toFloatNum a) (toFloatNum b) (toFloatNum c) (toFloatNum d)).2.2.1 ∧
      (clampOrder (toFloatNum a) (toFloatNum b) (toFloatNum c) (toFloatNum d)).2.1 ≤
        (clampOrder (toFloatNum a) (toFloatNum b) (toFloatNum c) (toFloatNum d)).2.2.2) ∧
    (∀ a1 a2 b1 b2 q1 q2 q3 q4, pyFloat a1 = Option.some q1 → pyFloat a2 = Option.some q2 →
      pyFloat b1 = Option.some q3 → pyFloat b2 = Option.some q4 →
      parse_box (PyVal.list [PyVal.list [a1, a2], PyVal.list [b1, b2]]) =
        (Option.some (clampOrder q1 q2 q3 q4), Option.none) ∧
      (clampOrder q1 q2 q3 q4).1 ≤ (clampOrder q1 q2 q3 q4).2.2.1 ∧
      (clampOrder q1 q2 q3 q4).2.1 ≤ (clampOrder q1 q2 q3 q4).2.2.2) ∧
    (∀ a1 a2 b1 b2, ¬(isNumeric (PyVal.list [a1, a2]) = true ∧
        isNumeric (PyVal.list [b1, b2]) = true) →
      (pyFloat a1 = Option.none ∨ pyFloat a2 = Option.none ∨ pyFloat b1 = Option.none ∨
        pyFloat b2 = Option.none) →
      ∃ e, parse_box (PyVal.list [PyVal.list [a1, a2], PyVal.list [b1, b2]]) =
        (Option.none, Option.some e) ∧ payloadErrType e = Option.some "invalid_box") ∧
    (∀ v, boxShapeOk v = false →
      parse_box v = (Option.none, Option.some boxShapeErr) ∧
      payloadErrType boxShapeErr = Option.some "invalid_box") := by
  refine ⟨rfl, ?_, ?_, ?_, ?_, ?_⟩
  · intro a b ha hb
    refine ⟨?_, clamp_nonneg _, clamp_le _, clamp_nonneg _, clamp_le _⟩
    unfold parse_box
    simp only [ha, hb, Bool.and_self, if_true, reduceIte]
  · intro a b c d ha hb hc hd
    have hs := clampOrder_spec (toFloatNum a) (toFloatNum b) (toFloatNum c) (toFloatNum d)
    refine ⟨?_, hs.2.2.2.2.2.2.2.2.1, hs.2.2.2.2.2.2.2.2.2⟩
    unfold parse_box
    simp only [ha, hb, hc, hd, Bool.and_self, if_true, reduceIte]
  · intro a1 a2 b1 b2 q1 q2 q3 q4 h1 h2 h3 h4
    have hs := clampOrder_spec q1 q2 q3 q4
    refine ⟨?_, hs.2.2.2.2.2.2.2.2.1, hs.2.2.2.2.2.2.2.2.2⟩
    unfold parse_box
    simp only [isNumeric, Bool.and_self, Bool.false_and, Bool.and_false, if_false,
      reduceIte, h1, h2, h3, h4]
    rfl
  · intro a1 a2 b1 b2 hnum hfail
    unfold parse_box
    simp only [isNumeric, Bool.and_self, Bool.false_and, Bool.and_false, if_false,
      reduceIte]
    rcases hc1 : pyFloat a1 with _ | q1
    · exact ⟨boxNumErr a1, rfl, rfl⟩
    · rcases hc2 : pyFloat a2 with _ | q2
      · simp only [hc1, hc2]
        exact ⟨boxNumErr a2, rfl, rfl⟩
      · rcases hc3 : pyFloat b1 with _ | q3
        · simp only [hc1, hc2, hc3]
          exact ⟨boxNumErr b1, rfl, rfl⟩
        · rcases hc4 : pyFloat b2 with _ | q4
          · simp only [hc1, hc2, hc3, hc4]
            exact ⟨boxNumErr b2, rfl, rfl⟩
          · rcases hfail with h | h | h | h <;> simp_all
  · intro v hv
    refine ⟨?_, rfl⟩
    cases v with
    | list xs =>
      rcases xs with _ | ⟨a, _ | ⟨b, _ | ⟨c, _ | ⟨d, _ | t⟩⟩⟩⟩
      · rfl
      · rfl
      · -- two elements
        simp only [boxShapeOk, Bool.or_eq_false_iff] at hv
        obtain ⟨hn, hl⟩ := hv
        simp only [parse_box]
        rw [hn]
        simp only [Bool.false_eq_true, if_false, reduceIte]
        cases a <;> cases b <;> first
          | rfl
          | (rename_i l1 l2
             rcases l1 with _ | ⟨x1, _ | ⟨x2, _ | u1⟩⟩ <;>
               rcases l2 with _ | ⟨y1, _ | ⟨y2, _ | u2⟩⟩ <;>
               simp_all)
          | (rename_i l1
             rcases l1 with _ | ⟨x1, _ | ⟨x2, _ | u1⟩⟩ <;> simp_all)
      · rfl
      · -- four elements
        simp only [boxShapeOk] at hv
        simp only [parse_box]
        rw [hv]
        simp only [Bool.false_eq_true, if_false, reduceIte]
      · rfl
    | none => rfl
    | bool b => rfl
    | int n => rfl
    | float q => rfl
    | str s => rfl
    | dict fs => rfl

/-- Witness for C3 at concrete inputs: a numeric point succeeds, a nested
pair with the numeric string `"7"` is coerced and ordered, a nested pair
with a non-coercible `None` element fails `invalid_box`, and a non-list
descriptor fails `invalid_box`. -/
theorem claim_C3_amended_parse_box_witness :
    parse_box (PyVal.list [PyVal.int 1, PyVal.int 2]) =
      (Option.some (1, 2, 1, 2), Option.none) ∧
    parse_box (PyVal.list [PyVal.list [PyVal.str "7", PyVal.int 2],
        PyVal.list [PyVal.int 3, PyVal.int 4]]) =
      (Option.some (3, 2, 7, 4), Option.none) ∧
    (∃ e, parse_box (PyVal.list [PyVal.list [PyVal.none, PyVal.int 1],
        PyVal.list [PyVal.int 2, PyVal.int 3]]) = (Option.none, Option.some e) ∧
      payloadErrType e = Option.some "invalid_box") ∧
    parse_box (PyVal.str "x") = (Option.none, Option.some boxShapeErr) := by
  refine ⟨?_, ?_, ?_, ?_⟩
  · exact ((claim_C3_amended_parse_box.2.1 (PyVal.int 1) (PyVal.int 2) rfl rfl).1).trans rfl
  · exact ((claim_C3_amended_parse_box.2.2.2.1 (PyVal.str "7") (PyVal.int 2) (PyVal.int 3)
      (PyVal.int 4) 7 2 3 4 rfl rfl rfl rfl).1).trans rfl
  · exact claim_C3_amended_parse_box.2.2.2.2.1 PyVal.none (PyVal.int 1) (PyVal.int 2)
      (PyVal.int 3) (by decide) (Or.inl rfl)
  · exact (claim_C3_amended_parse_box.2.2.2.2.2 (PyVal.str "x") rfl).1

theorem redactFirstN_zero (p : Message → Bool) (r : Message → Message) (ms : List Message) :
    redactFirstN p r 0 ms = ms := by
  cases ms <;> rfl

/-- When redaction kills the scan predicate, redacting the first `n`
matches removes exactly `n` from the match count (saturating). -/
theorem redactFirstN_countP (p : Message → Bool) (r : Message → Message)
    (ms : List Message) (hr : ∀ m ∈ ms, p m = true → p (r m) = false) :
    ∀ n, (redactFirstN p r n ms).countP p = ms.countP p - n := by
  induction ms with
  | nil => intro n; simp [redactFirstN]
  | cons m ms ih =>
    have hr' : ∀ m' ∈ ms, p m' = true → p (r m') = false :=
      fun m' hm' => hr m' (List.mem_cons_of_mem m hm')
    intro n
    cases n with
    | zero => simp [redactFirstN_zero]
    | succ n =>
      by_cases hp : p m = true
      · rw [redactFirstN, if_pos hp]
        rw [List.countP_cons, List.countP_cons, ih hr' n,
          hr m (List.mem_cons_self m ms) hp, hp]
        simp [Nat.succ_sub_succ]
      · have hp' : p m = false := Bool.eq_false_iff.mpr hp
        rw [redactFirstN, if_neg hp]
        rw [List.countP_cons, List.countP_cons, ih hr' (n + 1), hp']
        simp

theorem redactScreen_kills (m : Message) :
    isImgUserMsg (redactScreen m) = false := by
  simp [isImgUserMsg, redactScreen]

theorem prune_os_of_le {t : List Message} {k : Nat} (h : t.countP isImgUserMsg ≤ k) :
    prune_old_screenshots t k = t := by
  unfold prune_old_screenshots
  rw [if_pos h]

theorem prune_ot_of_le {t : List Message} {k : Nat} (h : t.countP isThinkMsg ≤ k) :
    prune_old_thinks t k = t := by
  unfold prune_old_thinks
  rw [if_pos h]

theorem prune_os_gt {t : List Message} {k : Nat} (h : ¬ t.countP isImgUserMsg ≤ k)
    (hk : ¬ k = 0) :
    prune_old_screenshots t k =
      redactFirstN isImgUserMsg redactScreen (t.countP isImgUserMsg - k) t := by
  simp only [prune_old_screenshots]
  rw [if_neg h, if_neg hk]

theorem prune_os_countP (t : List Message) (k : Nat) (hk : 1 ≤ k) :
    (prune_old_screenshots t k).countP isImgUserMsg ≤ k := by
  by_cases h : t.countP isImgUserMsg ≤ k
  · rw [prune_os_of_le h]; exact h
  · rw [prune_os_gt h (Nat.one_le_iff_ne_zero.mp hk)]
    rw [redactFirstN_countP isImgUserMsg redactScreen t
      (fun m _ _ => redactScreen_kills m)]
    have hlt : k ≤ t.countP isImgUserMsg := le_of_lt (lt_of_not_le h)
    rw [Nat.sub_sub_self hlt]

theorem prune_ot_gt {t : List Message} {k : Nat} (h : ¬ t.countP isThinkMsg ≤ k)
    (hk : ¬ k = 0) :
    prune_old_thinks t k =
      redactFirstN isThinkMsg redactThink (t.countP isThinkMsg - k) t := by
  simp only [prune_old_thinks]
  rw [if_neg h, if_neg hk]

theorem prune_ot_countP (t : List Message) (k : Nat) (hk : 1 ≤ k)
    (hstable : ∀ m ∈ t, isThinkMsg m = true → isThinkMsg (redactThink m) = false) :
    (prune_old_thinks t k).countP isThinkMsg ≤ k := by
  by_cases h : t.countP isThinkMsg ≤ k
  · rw [prune_ot_of_le h]; exact h
  · rw [prune_ot_gt h (Nat.one_le_iff_ne_zero.mp hk)]
    rw [redactFirstN_countP isThinkMsg redactThink t hstable]
    have hlt : k ≤ t.countP isThinkMsg := le_of_lt (lt_of_not_le h)
    rw [Nat.sub_sub_self hlt]

theorem prune_os_zero (t : List Message) : prune_old_screenshots t 0 = t := by
  by_cases h : t.countP isImgUserMsg ≤ 0
  · exact prune_os_of_le h
  · simp only [prune_old_screenshots]
    rw [if_neg h, if_pos trivial]
    exact redactFirstN_zero _ _ t

theorem prune_ot_zero (t : List Message) : prune_old_thinks t 0 = t := by
  by_cases h : t.countP isThinkMsg ≤ 0
  · exact prune_ot_of_le h
  · simp only [prune_old_thinks]
    rw [if_neg h, if_pos trivial]
    exact redactFirstN_zero _ _ t

/-- Counterexample to C4 as stated: with `keep_last = 0`, Python's
`idxs[:-0]` is the empty slice, so `prune_old_screenshots` redacts
nothing and one image-bearing user message survives a retention count of
zero. -/
theorem claim_C4_counterexample :
    (prune_old_screenshots
        [Message.mk "user" (Content.parts [PyVal.dict [("type", PyVal.str "image_url")]])
          Option.none Option.none []] 0).countP isImgUserMsg = 1 ∧
    ¬ ((prune_old_screenshots
        [Message.mk "user" (Content.parts [PyVal.dict [("type", PyVal.str "image_url")]])
          Option.none Option.none []] 0).countP isImgUserMsg ≤ 0) := by
  refine ⟨rfl, by decide⟩

/-- C4 (amended): for every retention count `k ≥ 1`, after
`prune_old_screenshots` at most `k` image-bearing user messages remain;
and provided redacting any reasoning-bearing assistant message of the
transcript leaves no paired `<think>`/`</think>` delimiters (deleting a
span can otherwise re-form one), after `prune_old_thinks` at most `k`
reasoning-bearing assistant messages remain.  (At `k = 0` both passes
redact nothing — Python's `[:-0]` slice is empty.) -/
theorem claim_C4_amended_retention_bound (t : List Message) (k : Nat) (hk : 1 ≤ k)
    (hstable : ∀ m ∈ t, isThinkMsg m = true → isThinkMsg (redactThink m) = false) :
    (prune_old_screenshots t k).countP isImgUserMsg ≤ k ∧
    (prune_old_thinks t k).countP isThinkMsg ≤ k :=
  ⟨prune_os_countP t k hk, prune_ot_countP t k hk hstable⟩

/-- Witness for C4: a transcript with three image messages and one
stable reasoning message pruned with `k = 1` retains one of each. -/
theorem claim_C4_amended_retention_bound_witness :
    (prune_old_screenshots
        [Message.mk "user" (Content.parts [PyVal.dict [("type", PyVal.str "image_url")]])
           Option.none Option.none [],
         Message.mk "user" (Content.parts [PyVal.dict [("type", PyVal.str "image_url")]])
           Option.none Option.none [],
         Message.mk "user" (Content.parts [PyVal.dict [("type", PyVal.str "image_url")]])
           Option.none Option.none []] 1).countP isImgUserMsg ≤ 1 ∧
    (prune_old_thinks
        [Message.mk "assistant" (Content.text "<think>x</think>done")
           Option.none Option.none [],
         Message.mk "assistant" (Content.text "<think>y</think>done")
           Option.none Option.none []] 1).countP isThinkMsg ≤ 1 := by
  constructor
  · refine (claim_C4_amended_retention_bound _ 1 (by decide) ?_).1
    intro m hm h
    simp at hm
    subst hm
    exact absurd h (by decide)
  · refine (claim_C4_amended_retention_bound _ 1 (by decide) ?_).2
    intro m hm h
    simp at hm
    rcases hm with h1 | h1 <;> subst h1 <;> decide

/-- C6 (amended): `prune_old_screenshots` is idempotent for every
transcript and every retention count; `prune_old_thinks` is idempotent
provided redacting any reasoning-bearing assistant message of the
transcript leaves no paired `<think>`/`</think>` delimiters (regex
deletion can otherwise re-form a pair, and a second pass then strips
again). -/
theorem claim_C6_amended_prune_idempotent (t : List Message) (k : Nat)
    (hstable : ∀ m ∈ t, isThinkMsg m = true → isThinkMsg (redactThink m) = false) :
    prune_old_screenshots (prune_old_screenshots t k) k = prune_old_screenshots t k ∧
    prune_old_thinks (prune_old_thinks t k) k = prune_old_thinks t k := by
  constructor
  · by_cases h : t.countP isImgUserMsg ≤ k
    · rw [prune_os_of_le h, prune_os_of_le h]
    · by_cases hk : k = 0
      · subst hk
        rw [prune_os_zero, prune_os_zero]
      · have hc : (prune_old_screenshots t k).countP isImgUserMsg ≤ k :=
          prune_os_countP t k (Nat.one_le_iff_ne_zero.mpr hk)
        exact prune_os_of_le hc
  · by_cases h : t.countP isThinkMsg ≤ k
    · rw [prune_ot_of_le h, prune_ot_of_le h]
    · by_cases hk : k = 0
      · subst hk
        rw [prune_ot_zero, prune_ot_zero]
      · have hc : (prune_old_thinks t k).countP isThinkMsg ≤ k :=
          prune_ot_countP t k (Nat.one_le_iff_ne_zero.mpr hk) hstable
        exact prune_ot_of_le hc

/-- Counterexample to C6 as stated: deleting a `<think>...</think>` span
can splice the surrounding text into a NEW delimiter pair, so a second
`prune_old_thinks` pass strips again — the pass is not idempotent.  Here
the redacted first message becomes `"<think>b</think>"` after one pass
and `""` after two. -/
theorem claim_C6_counterexample :
    prune_old_thinks
        [Message.mk "assistant" (Content.text "<th<think>a</think>ink>b</think>")
           Option.none Option.none [],
         Message.mk "assistant" (Content.text "<think>x</think>")
           Option.none Option.none []] 1 =
      [Message.mk "assistant" (Content.text "<think>b</think>") Option.none Option.none [],
       Message.mk "assistant" (Content.text "<think>x</think>") Option.none Option.none []] ∧
    prune_old_thinks
        [Message.mk "assistant" (Content.text "<think>b</think>") Option.none Option.none [],
         Message.mk "assistant" (Content.text "<think>x</think>")
           Option.none Option.none []] 1 =
      [Message.mk "assistant" (Content.text "") Option.none Option.none [],
       Message.mk "assistant" (Content.text "<think>x</think>") Option.none Option.none []] ∧
    ("<think>b</think>" : String) ≠ "" :=
  ⟨rfl, rfl, by decide⟩

/-- Witness for C6: idempotence at a concrete transcript whose redactions
are stable. -/
theorem claim_C6_amended_prune_idempotent_witness :
    prune_old_screenshots (prune_old_screenshots
        [Message.mk "user" (Content.parts [PyVal.dict [("type", PyVal.str "image_url")]])
           Option.none Option.none [],
         Message.mk "user" (Content.parts [PyVal.dict [("type", PyVal.str "image_url")]])
           Option.none Option.none []] 1) 1 =
      prune_old_screenshots
        [Message.mk "user" (Content.parts [PyVal.dict [("type", PyVal.str "image_url")]])
           Option.none Option.none [],
         Message.mk "user" (Content.parts [PyVal.dict [("type", PyVal.str "image_url")]])
           Option.none Option.none []] 1 ∧
    prune_old_thinks (prune_old_thinks
        [Message.mk "assistant" (Content.text "<think>x</think>done")
           Option.none Option.none [],
         Message.mk "assistant" (Content.text "<think>y</think>done")
           Option.none Option.none []] 1) 1 =
      prune_old_thinks
        [Message.mk "assistant" (Content.text "<think>x</think>done")
           Option.none Option.none [],
         Message.mk "assistant" (Content.text "<think>y</think>done")
           Option.none Option.none []] 1 := by
  constructor
  · refine (claim_C6_amended_prune_idempotent _ 1 ?_).1
    intro m hm h
    simp at hm
    subst hm
    exact absurd h (by decide)
  · refine (claim_C6_amended_prune_idempotent _ 1 ?_).2
    intro m hm h
    simp at hm
    rcases hm with h1 | h1 <;> subst h1 <;> decide

theorem redactFirstN_nil (p : Message → Bool) (r : Message → Message) (n : Nat) :
    redactFirstN p r n [] = [] := by cases n <;> rfl

theorem redactFirstN_all_not (p : Message → Bool) (r : Message → Message)
    (ys : List Message) (h : ∀ y ∈ ys, p y = false) :
    ∀ n, redactFirstN p r n ys = ys := by
  induction ys with
  | nil => intro n; cases n <;> rfl
  | cons y ys ih =>
    intro n
    cases n with
    | zero => rfl
    | succ n =>
      rw [redactFirstN, if_neg (by rw [h y (List.mem_cons_self y ys)]; exact Bool.false_ne_true)]
      rw [ih (fun z hz => h z (List.mem_cons_of_mem y hz)) (n + 1)]

theorem redactFirstN_append (p : Message → Bool) (r : Message → Message)
    (xs ys : List Message) :
    ∀ n, redactFirstN p r n (xs ++ ys) =
      redactFirstN p r n xs ++ redactFirstN p r (n - xs.countP p) ys := by
  induction xs with
  | nil => intro n; simp [redactFirstN_zero, redactFirstN_nil]
  | cons x xs ih =>
    intro n
    cases n with
    | zero => simp [redactFirstN_zero]
    | succ n =>
      rw [List.cons_append]
      by_cases hp : p x = true
      · rw [redactFirstN, if_pos hp, redactFirstN, if_pos hp, ih n, List.countP_cons, hp]
        simp [Nat.succ_sub_succ, List.cons_append]
      · have hp' : p x = false := Bool.eq_false_iff.mpr hp
        rw [redactFirstN, if_neg hp, redactFirstN, if_neg hp, ih (n + 1), List.countP_cons,
          hp']
        simp [List.cons_append]

theorem tooManyMsg_not_img (e : ToolCall) : isImgUserMsg (tooManyMsg e) = false := rfl

/-- C1: when the model response carries more than one tool call, the loop
step dispatches exactly one tool — the first in list order — and appends
one synthetic `too_many_tool_calls` failure tool message per extra call,
each carrying the `tool_call_id` and `name` of its corresponding extra
call. -/
theorem claim_C1_single_action_per_step (api : Winapi) (dcfg : DumpCfg) (cfg : StepCfg)
    (messages : List Message) (lastContent : String) (msg : Message) (st : ExecState)
    (tc : ToolCall) (extras : List ToolCall)
    (hcalls : msg.toolCalls = tc :: extras) (hextra : extras ≠ []) :
    (run_agent_step api dcfg cfg messages lastContent msg st).dispatched = [tc] ∧
    (∃ pre post,
      (run_agent_step api dcfg cfg messages lastContent msg st).messages =
        pre ++ extras.map tooManyMsg ++ post) ∧
    (extras.map tooManyMsg).length = extras.length ∧
    (∀ e ∈ extras, (tooManyMsg e).role = "tool" ∧
      (tooManyMsg e).toolCallId = Option.some e.id ∧
      (tooManyMsg e).name = Option.some e.name ∧
      (tooManyMsg e).content = Content.payload (Payload.mk
        (PyVal.dict [("ok", PyVal.bool false), ("error", PyVal.str "too_many_tool_calls")])
        defaultSep)) := by
  simp only [run_agent_step, hcalls]
  refine ⟨by trivial, ?_, by simp, fun e he => ⟨rfl, rfl, rfl, rfl⟩⟩
  set A := prune_old_thinks (messages ++ [msg]) cfg.keepLastThinks with hA
  set M := extras.map tooManyMsg with hM
  set T := (execute_tool api dcfg tc.name tc.arguments tc.id st).toolMsg with hT
  have hMnot : ∀ x ∈ M, isImgUserMsg x = false := by
    intro x hx
    obtain ⟨e, _, rfl⟩ := List.mem_map.mp hx
    exact tooManyMsg_not_img e
  rcases hu : (execute_tool api dcfg tc.name tc.arguments tc.id st).userMsg with _ | u
  · exact ⟨A, [T], rfl⟩
  · show ∃ pre post,
      prune_old_screenshots (A ++ M ++ [T] ++ [u]) cfg.keepLastScreenshots =
        pre ++ M ++ post
    by_cases hc : (((A ++ M) ++ [T]) ++ [u]).countP isImgUserMsg ≤ cfg.keepLastScreenshots
    · refine ⟨A, [T] ++ [u], ?_⟩
      rw [prune_os_of_le hc]
      simp [List.append_assoc]
    · by_cases hk : cfg.keepLastScreenshots = 0
      · refine ⟨A, [T] ++ [u], ?_⟩
        rw [hk, prune_os_zero]
        simp [List.append_assoc]
      · rw [prune_os_gt hc hk]
        have e1 : ((A ++ M) ++ [T]) ++ [u] = A ++ (M ++ ([T] ++ [u])) := by
          simp [List.append_assoc]
        rw [e1, redactFirstN_append, redactFirstN_append,
          redactFirstN_all_not isImgUserMsg redactScreen M hMnot, ← List.append_assoc]
        exact ⟨_, _, rfl⟩

/-- Witness for C1: a response with two tool calls dispatches only the
first, and one synthetic `too_many_tool_calls` message for the second is
appended. -/
theorem claim_C1_single_action_per_step_witness :
    (run_agent_step apiStub dcfg0 (StepCfg.mk 2 2) [] ""
        (Message.mk "assistant" (Content.text "go") Option.none Option.none
          [ToolCall.mk "c1" "press_key" PyVal.none,
           ToolCall.mk "c2" "observe_screen" PyVal.none]) st0).dispatched =
      [ToolCall.mk "c1" "press_key" PyVal.none] ∧
    (∃ pre post,
      (run_agent_step apiStub dcfg0 (StepCfg.mk 2 2) [] ""
        (Message.mk "assistant" (Content.text "go") Option.none Option.none
          [ToolCall.mk "c1" "press_key" PyVal.none,
           ToolCall.mk "c2" "observe_screen" PyVal.none]) st0).messages =
        pre ++ [tooManyMsg (ToolCall.mk "c2" "observe_screen" PyVal.none)] ++ post) := by
  have h := claim_C1_single_action_per_step apiStub dcfg0 (StepCfg.mk 2 2) [] ""
    (Message.mk "assistant" (Content.text "go") Option.none Option.none
      [ToolCall.mk "c1" "press_key" PyVal.none,
       ToolCall.mk "c2" "observe_screen" PyVal.none]) st0
    (ToolCall.mk "c1" "press_key" PyVal.none)
    [ToolCall.mk "c2" "observe_screen" PyVal.none] rfl (List.cons_ne_nil _ _)
  exact ⟨h.1, h.2.1⟩
